import Mathlib

/-!
Verification development for the Paperless-KIplus classification pipeline
(`custom_components/paperless_kiplus/paperless_ai_sorter.py`).

The Python module is shallowly embedded: pure helpers become Lean functions,
the stateful scan loop becomes explicit state passing over a `ScanState`
record, network I/O is modelled by per-document oracles whose observable
requests are accumulated in a call trace, and Python exceptions become an
explicit `DocErr` error type threaded through `Except`.  Python floats are
modelled as exact rationals (`ℚ`); binary floating-point rounding is outside
the modelled scope.
-/

namespace PaperlessKIplus

/-- String-keyed association list standing in for a Python `dict`.
`dget d k` models `d.get(k)` (first binding wins; real dicts have unique
keys, which all constructions here preserve). -/
def dget {α : Type} (d : List (String × α)) (k : String) : Option α :=
  (d.find? (fun p => p.1 == k)).map (fun p => p.2)

/-- Models `d[k] = v`: replaces the binding in place if the key exists,
otherwise appends it (Python dicts keep insertion order). -/
def dset {α : Type} (d : List (String × α)) (k : String) (v : α) : List (String × α) :=
  if (d.find? (fun p => p.1 == k)).isSome then
    d.map (fun p => if p.1 == k then (k, v) else p)
  else d ++ [(k, v)]

/-- Models `d.pop(k, None)`: removes the binding for `k` if present. -/
def dpop {α : Type} (d : List (String × α)) (k : String) : List (String × α) :=
  d.filter (fun p => p.1 != k)

/-- ASCII whitespace, the model of what Python `str.strip()` removes
(unicode whitespace beyond these is outside the modelled scope). -/
def pyIsSpace (c : Char) : Bool :=
  c == ' ' || c == '\t' || c == '\n' || c == '\r'

/-- Models Python `str.strip()`.  (Implemented on the character list so
that proofs can evaluate it; the library `String.trim` is not
kernel-reducible.) -/
def pyStrip (s : String) : String :=
  ⟨((s.data.dropWhile pyIsSpace).reverse.dropWhile pyIsSpace).reverse⟩

/-- Models Python `str.lower()` on the ASCII range (non-ASCII case mapping
is outside the modelled scope). -/
def pyLower (s : String) : String :=
  ⟨s.data.map Char.toLower⟩

/-- Boolean prefix test on character lists. -/
def prefixOfB : List Char → List Char → Bool
  | [], _ => true
  | _ :: _, [] => false
  | a :: as, b :: bs => a == b && prefixOfB as bs

/-- Boolean infix test on character lists. -/
def infixOfB (needle : List Char) : List Char → Bool
  | [] => needle.isEmpty
  | c :: rest => prefixOfB needle (c :: rest) || infixOfB needle rest

/-- Substring test, used for the `"HTTP 500" in str(exc)` and
`"Feldanalyse: tags:" in error_text` checks of the source: Python `in` on
strings is substring containment. -/
def containsSub (s sub : String) : Bool :=
  infixOfB sub.data s.data

/-- Single-character splitter (the model only ever splits on one-character
separators), matching `str.split(sep)` - every occurrence separates. -/
def splitOnChar (c : Char) : List Char → List (List Char)
  | [] => [[]]
  | a :: rest =>
      let r := splitOnChar c rest
      if a == c then [] :: r
      else
        match r with
        | h :: t => (a :: h) :: t
        | [] => [[a]]

/-- Numeric value of a list of decimal digits. -/
def digitsVal (l : List Char) : ℕ :=
  l.foldl (fun n c => n * 10 + (c.toNat - 48)) 0

/-! #### Canonical integer-set model

Python `set[int]` values are modelled as strictly sorted duplicate-free
lists: two sets are equal exactly when their canonical lists are equal,
and `sorted(s)` is the canonical list itself. -/

/-- Inserts a value into a strictly sorted duplicate-free list. -/
def insertInt (x : ℤ) : List ℤ → List ℤ
  | [] => [x]
  | y :: rest =>
      if x < y then x :: y :: rest
      else if x = y then y :: rest
      else y :: insertInt x rest

/-- Canonical form of `set(l)`. -/
def intSetOf (l : List ℤ) : List ℤ :=
  l.foldr insertInt []

/-- Models `s.discard(x)` / removal from a set. -/
def eraseInt (s : List ℤ) (x : ℤ) : List ℤ :=
  s.filter (fun y => y != x)

/-- Models `s.update(xs)` / union with further elements. -/
def unionInt (s : List ℤ) (l : List ℤ) : List ℤ :=
  l.foldr insertInt s

/-- Set membership. -/
def memInt (x : ℤ) (s : List ℤ) : Bool :=
  s.contains x

/-- JSON values as delivered by `response.json()` / `json.loads`. -/
inductive JVal where
  | jnull : JVal
  | jbool : Bool → JVal
  | jnum : ℚ → JVal
  | jstr : String → JVal
  | jlist : List JVal → JVal
deriving Repr

mutual
/-- Decidable equality on `JVal`, written by hand because the deriving
handler does not support the nested `List JVal`. -/
def jvalDecEq : (a b : JVal) → Decidable (a = b)
  | .jnull, .jnull => isTrue rfl
  | .jnull, .jbool _ => isFalse (by simp)
  | .jnull, .jnum _ => isFalse (by simp)
  | .jnull, .jstr _ => isFalse (by simp)
  | .jnull, .jlist _ => isFalse (by simp)
  | .jbool _, .jnull => isFalse (by simp)
  | .jbool a, .jbool b => decidable_of_iff (a = b) (by simp)
  | .jbool _, .jnum _ => isFalse (by simp)
  | .jbool _, .jstr _ => isFalse (by simp)
  | .jbool _, .jlist _ => isFalse (by simp)
  | .jnum _, .jnull => isFalse (by simp)
  | .jnum _, .jbool _ => isFalse (by simp)
  | .jnum a, .jnum b => decidable_of_iff (a = b) (by simp)
  | .jnum _, .jstr _ => isFalse (by simp)
  | .jnum _, .jlist _ => isFalse (by simp)
  | .jstr _, .jnull => isFalse (by simp)
  | .jstr _, .jbool _ => isFalse (by simp)
  | .jstr _, .jnum _ => isFalse (by simp)
  | .jstr a, .jstr b => decidable_of_iff (a = b) (by simp)
  | .jstr _, .jlist _ => isFalse (by simp)
  | .jlist _, .jnull => isFalse (by simp)
  | .jlist _, .jbool _ => isFalse (by simp)
  | .jlist _, .jnum _ => isFalse (by simp)
  | .jlist _, .jstr _ => isFalse (by simp)
  | .jlist a, .jlist b =>
      match jvalListDecEq a b with
      | isTrue h => isTrue (by rw [h])
      | isFalse h => isFalse (fun hh => h (by injection hh))

/-- Decidable equality on lists of `JVal`, mutually with `jvalDecEq`. -/
def jvalListDecEq : (a b : List JVal) → Decidable (a = b)
  | [], [] => isTrue rfl
  | [], _ :: _ => isFalse (by simp)
  | _ :: _, [] => isFalse (by simp)
  | a :: as, b :: bs =>
      match jvalDecEq a b with
      | isFalse h1 => isFalse (fun hh => by injection hh with h3 h4; exact h1 h3)
      | isTrue h1 =>
          match jvalListDecEq as bs with
          | isTrue h2 => isTrue (by rw [h1, h2])
          | isFalse h2 => isFalse (fun hh => by injection hh with h3 h4; exact h2 h4)
end

instance : DecidableEq JVal := jvalDecEq

/-- JSON object: the top-level model-output payload is a string-keyed dict. -/
abbrev JObj := List (String × JVal)

/-- Models Python truthiness (`bool(v)`) on the embedded JSON values. -/
def pyTruthy : JVal → Bool
  | .jnull => false
  | .jbool b => b
  | .jnum q => q != 0
  | .jstr s => s != ""
  | .jlist l => !l.isEmpty

mutual
/-- Models Python `str()` on the embedded JSON values.  String rendering of
numbers and lists is schematic (the pipeline only feeds the result into
`.strip().lower()` and a dict lookup, and every claim exercises string
labels only). -/
def pyStr : JVal → String
  | .jnull => "None"
  | .jbool b => if b then "True" else "False"
  | .jnum q => if q.den == 1 then toString q.num else toString q
  | .jstr s => s
  | .jlist xs => "[" ++ pyStrList xs ++ "]"

/-- Comma-separated rendering of a JSON list body for `pyStr`. -/
def pyStrList : List JVal → String
  | [] => ""
  | [x] => pyStr x
  | x :: xs => pyStr x ++ ", " ++ pyStrList xs
end

/-- Exceptions observable at the document-processing boundary.
`apiError` is `PaperlessApiError`, `aiError` is `AiClassificationError`,
`valueError` is Python `ValueError`; `uncaught` stands for any other
Python exception (`TypeError`, `KeyError`, ...), which the document loop
does not catch. -/
inductive DocErr where
  | apiError : String → DocErr
  | aiError : String → DocErr
  | valueError : String → DocErr
  | uncaught : String → DocErr
deriving DecidableEq, Repr

/-- Decidable equality on `Except`, used to state outcomes of fallible
operations. -/
def exceptDecEq {ε α : Type} [DecidableEq ε] [DecidableEq α] :
    (a b : Except ε α) → Decidable (a = b)
  | .error e1, .error e2 => decidable_of_iff (e1 = e2) (by simp)
  | .error _, .ok _ => isFalse (by simp)
  | .ok _, .error _ => isFalse (by simp)
  | .ok a, .ok b => decidable_of_iff (a = b) (by simp)

instance {ε α : Type} [DecidableEq ε] [DecidableEq α] : DecidableEq (Except ε α) :=
  exceptDecEq

/-- Message carried by the exception (Python `str(exc)`). -/
def DocErr.msg : DocErr → String
  | .apiError m => m
  | .aiError m => m
  | .valueError m => m
  | .uncaught m => m

/-- Python class name of the exception, as recorded via
`type(exc).__name__` in the error details. -/
def DocErr.typeName : DocErr → String
  | .apiError _ => "PaperlessApiError"
  | .aiError _ => "AiClassificationError"
  | .valueError _ => "ValueError"
  | .uncaught _ => "UncaughtException"

/-- Whether the document loop's
`except (AiClassificationError, PaperlessApiError, ValueError)` clause
catches this exception. -/
def DocErr.isCaughtKind : DocErr → Bool
  | .apiError _ => true
  | .aiError _ => true
  | .valueError _ => true
  | .uncaught _ => false

/-- Whether this exception is a `PaperlessApiError` (the only kind caught
by the narrower `except PaperlessApiError` clauses). -/
def DocErr.isApiError : DocErr → Bool
  | .apiError _ => true
  | _ => false

/-- Decimal-literal parsing backing the model of Python `float(str)`.
Covers the plain forms `digits`, `digits.digits`, `.digits`, `digits.`
with an optional sign, which is the shape classifier outputs take; exotic
accepted forms (exponents, `inf`, `nan`, underscores) are outside the
modelled scope. -/
def parseDecimalCore (s : List Char) : Option ℚ :=
  match splitOnChar '.' s with
  | [ip] =>
      if !ip.isEmpty && ip.all Char.isDigit then some ((digitsVal ip : ℚ))
      else none
  | [ip, fp] =>
      if (!ip.isEmpty || !fp.isEmpty) && ip.all Char.isDigit && fp.all Char.isDigit then
        some ((digitsVal ip : ℚ) + (digitsVal fp : ℚ) / ((10 : ℚ) ^ fp.length))
      else none
  | _ => none

/-- Trims and handles the optional sign before `parseDecimalCore`. -/
def parseDecimal (s : String) : Option ℚ :=
  match (pyStrip s).data with
  | '-' :: rest => (parseDecimalCore rest).map (fun q => -q)
  | '+' :: rest => parseDecimalCore rest
  | t => parseDecimalCore t

/-- Models Python `float(v)` on a JSON value: numbers pass through, bools
coerce to 0/1, strings are parsed (failure is a `ValueError`), `None` and
lists raise `TypeError`. -/
def pyFloat : JVal → Except DocErr ℚ
  | .jnum q => .ok q
  | .jbool b => .ok (if b then 1 else 0)
  | .jstr s =>
      match parseDecimal s with
      | some q => .ok q
      | none => .error (.valueError ("could not convert string to float: " ++ s))
  | .jnull => .error (.uncaught "TypeError: float() argument must not be NoneType")
  | .jlist _ => .error (.uncaught "TypeError: float() argument must not be list")

/-- Numeric value of a decimal digit character. -/
def charDigit (c : Char) : Nat := c.toNat - 48

/-- Gregorian leap-year rule used by `datetime.date`. -/
def isLeapYear (y : Nat) : Bool :=
  (y % 4 == 0 && y % 100 != 0) || y % 400 == 0

/-- Days in a month, as validated by `datetime.date`. -/
def daysInMonth (y m : Nat) : Nat :=
  if m == 2 then (if isLeapYear y then 29 else 28)
  else if m == 4 || m == 6 || m == 9 || m == 11 then 30
  else 31

/-- Models `datetime.date.fromisoformat` on the strict `YYYY-MM-DD` shape
(the only shape the classic parser accepts): returns the year, month and
day when the string is a valid date with year at least 1. -/
def parseIsoDate (s : String) : Option (Nat × Nat × Nat) :=
  match s.toList with
  | [y1, y2, y3, y4, s1, m1, m2, s2, d1, d2] =>
      if s1 == '-' && s2 == '-' &&
         y1.isDigit && y2.isDigit && y3.isDigit && y4.isDigit &&
         m1.isDigit && m2.isDigit && d1.isDigit && d2.isDigit then
        let y := charDigit y1 * 1000 + charDigit y2 * 100 + charDigit y3 * 10 + charDigit y4
        let m := charDigit m1 * 10 + charDigit m2
        let d := charDigit d1 * 10 + charDigit d2
        if 1 ≤ y && 1 ≤ m && m ≤ 12 && 1 ≤ d && d ≤ daysInMonth y m then
          some (y, m, d)
        else none
      else none
  | _ => none

/-- Translation of `normalize_iso_date`: strips the value, drops a trailing
time component after `T` or a blank, and validates the remaining
`YYYY-MM-DD` date; unparseable input yields `none`, never an error.  For a
string the strict parser accepts, `date.fromisoformat(c).isoformat()`
returns `c` itself. -/
def normalize_iso_date (value : Option String) : Option String :=
  match value with
  | none => none
  | some v =>
      if v == "" then none
      else
        let candidate := pyStrip v
        if candidate == "" then none
        else
          -- `candidate.split("T", 1)[0]` keeps everything before the first T
          let candidate : String := ⟨candidate.data.takeWhile (fun c => c != 'T')⟩
          let candidate : String := ⟨candidate.data.takeWhile (fun c => c != ' ')⟩
          if (parseIsoDate candidate).isSome then some candidate else none

/-- Reads a key from the model-output payload (`payload.get(key)`). -/
def jget (o : JObj) (k : String) : Option JVal := dget o k

/-- Required fields of `AiClassifier._validate_model_output`. -/
def requiredFields : List String :=
  ["document_type", "correspondent", "storage_path", "tags", "confidence"]

/-- Translation of `AiClassifier._validate_model_output`: checks the
required keys, that `tags` is a list, that `float(confidence)` lies in
[0,1], and that `document_date` and `summary` are strings or null.  Rule
violations raise `AiClassificationError`; the `float` conversion itself
can raise `ValueError` (string) or an uncaught `TypeError`. -/
def validate_model_output (payload : JObj) : Except DocErr Unit :=
  let missing := requiredFields.filter (fun k => (jget payload k).isNone)
  if !missing.isEmpty then
    .error (.aiError ("KI-Ausgabe fehlt Pflichtfelder: " ++ String.intercalate ", " missing))
  else
    match jget payload "tags" with
    | some (.jlist _) =>
        match jget payload "confidence" with
        | none => .error (.uncaught "KeyError: confidence")
        | some cv =>
            match pyFloat cv with
            | .error e => .error e
            | .ok confidence =>
                if confidence < 0 ∨ confidence > 1 then
                  .error (.aiError "KI-Ausgabe: 'confidence' muss zwischen 0 und 1 liegen.")
                else
                  match jget payload "document_date" with
                  | some v =>
                      if v != .jnull && !(match v with | .jstr _ => true | _ => false) then
                        .error (.aiError "KI-Ausgabe: 'document_date' muss YYYY-MM-DD oder null sein.")
                      else
                        match jget payload "summary" with
                        | some w =>
                            if w != .jnull && !(match w with | .jstr _ => true | _ => false) then
                              .error (.aiError "KI-Ausgabe: 'summary' muss ein String oder null sein.")
                            else .ok ()
                        | none => .ok ()
                  | none =>
                      match jget payload "summary" with
                      | some w =>
                          if w != .jnull && !(match w with | .jstr _ => true | _ => false) then
                            .error (.aiError "KI-Ausgabe: 'summary' muss ein String oder null sein.")
                          else .ok ()
                      | none => .ok ()
    | some _ => .error (.aiError "KI-Ausgabe: 'tags' muss eine Liste sein.")
    | none => .error (.uncaught "KeyError: tags")

/-- Token usage metadata (`_meta_usage`): each field goes through
`int(usage.get(k, 0) or 0)`, so the values are Python ints. -/
structure Usage where
  prompt_tokens : ℤ
  completion_tokens : ℤ
  total_tokens : ℤ
deriving DecidableEq, Repr

/-- Translation of `extract_usage`: if the reported total is 0 it falls
back to prompt + completion. -/
def extract_usage (u : Usage) : ℤ × ℤ × ℤ :=
  let total := if u.total_tokens = 0 then u.prompt_tokens + u.completion_tokens
               else u.total_tokens
  (u.prompt_tokens, u.completion_tokens, total)

/-- Model of `AiClassifier.classify` downstream of the HTTP exchange.
`raw` is the outcome of the transport/JSON-extraction phase: transport
errors, missing keys and JSON decode errors are already wrapped as
`AiClassificationError` by the `except` clause of `classify` and arrive
here as `.aiError`.  On a structurally delivered payload the strict
validation runs; a `ValueError` from it (unparseable `confidence` string)
is caught by the same `except` clause and wrapped, an
`AiClassificationError` propagates as-is, and any other exception
(`TypeError`) escapes `classify` uncaught. -/
def classify (raw : Except DocErr (JObj × Usage)) : Except DocErr (JObj × Usage) :=
  match raw with
  | .error e => .error e
  | .ok (payload, usage) =>
      match validate_model_output payload with
      | .ok _ => .ok (payload, usage)
      | .error (.valueError m) =>
          .error (.aiError ("KI-Antwort ungültig oder Request fehlgeschlagen: " ++ m))
      | .error e => .error e

/-- Translation of `sanitize_prediction`: a proposed correspondent whose
stripped, lower-cased label collides with a known storage-path label is
replaced by `None`. -/
def sanitize_prediction (prediction : JObj) (storage_paths_map : List (String × ℤ)) : JObj :=
  let rawCorrespondent := jget prediction "correspondent"
  let correspondent := pyStrip
    (match rawCorrespondent with
     | some v => if pyTruthy v then pyStr v else ""
     | none => "")
  if correspondent != "" && (dget storage_paths_map (pyLower correspondent)).isSome then
    dset prediction "correspondent" .jnull
  else prediction

/-- Patch payload destined for `PATCH /api/documents/{id}/`: a sparse dict
over the five fields the pipeline ever writes.  `none` models an absent
key. -/
structure PatchPayload where
  document_type : Option ℤ := none
  correspondent : Option ℤ := none
  storage_path : Option ℤ := none
  tags : Option (List ℤ) := none
  created : Option String := none
deriving DecidableEq, Repr

/-- Python truthiness of the patch dict (`not patch_payload`). -/
def patchIsEmpty (p : PatchPayload) : Bool :=
  p.document_type.isNone && p.correspondent.isNone && p.storage_path.isNone &&
  p.tags.isNone && p.created.isNone

/-- `set(patch_payload.keys()) == {"tags"}`. -/
def patchIsTagsOnly (p : PatchPayload) : Bool :=
  p.document_type.isNone && p.correspondent.isNone && p.storage_path.isNone &&
  p.tags.isSome && p.created.isNone

/-- `{k: v for k, v in p.items() if k != "created"}` via `pop`. -/
def removeCreated (p : PatchPayload) : PatchPayload := { p with created := none }

/-- Drops the `tags` key via `pop`. -/
def removeTags (p : PatchPayload) : PatchPayload := { p with tags := none }

/-- Document snapshot as listed by `GET /api/documents/` (the fields the
pipeline reads). -/
structure Document where
  id : Option ℤ := none
  title : String := ""
  content : String := ""
  tags : List ℤ := []
  document_type : Option ℤ := none
  correspondent : Option ℤ := none
  storage_path : Option ℤ := none
  created : Option String := none
deriving DecidableEq, Repr

/-- Translation of `should_process_document`: process documents lacking a
type or lacking tags. -/
def should_process_document (doc : Document) : Bool :=
  !(doc.document_type.isSome && !doc.tags.isEmpty)

/-- Translation of `apply_forced_tag_rules`: starting from the union of the
current tags and the patch's proposed tags, the `#NEU` tag id is removed
and the `KI` tag id added (each when known); the patch's `tags` key is
(re)assigned only when the resulting set differs from the current tags. -/
def apply_forced_tag_rules (patch_payload : PatchPayload) (current_tag_ids : List ℤ)
    (ki_tag_id remove_neu_tag_id : Option ℤ) : PatchPayload :=
  let f := unionInt current_tag_ids (patch_payload.tags.getD [])
  let f := match remove_neu_tag_id with
           | some n => eraseInt f n
           | none => f
  let f := match ki_tag_id with
           | some k => insertInt k f
           | none => f
  if f ≠ current_tag_ids then
    { patch_payload with tags := some f }
  else patch_payload

/-- Models `document.get(field) or None`: a stored id of 0 is falsy in
Python and collapses to `None` in the comparison. -/
def pyIntOrNone (v : Option ℤ) : Option ℤ :=
  match v with
  | some 0 => none
  | x => x

/-- Translation of `filter_unchanged_patch_fields`: drops each patch field
whose proposed value equals the document's current value (dates compared
after normalization, tag lists compared as sets). -/
def filter_unchanged_patch_fields (document : Document) (patch_payload : PatchPayload) :
    PatchPayload :=
  let p := patch_payload
  let p := if p.document_type.isSome &&
              pyIntOrNone document.document_type == pyIntOrNone p.document_type
           then { p with document_type := none } else p
  let p := if p.correspondent.isSome &&
              pyIntOrNone document.correspondent == pyIntOrNone p.correspondent
           then { p with correspondent := none } else p
  let p := if p.storage_path.isSome &&
              pyIntOrNone document.storage_path == pyIntOrNone p.storage_path
           then { p with storage_path := none } else p
  let p := match p.created with
           | some c =>
               if normalize_iso_date document.created == normalize_iso_date (some c)
               then { p with created := none } else p
           | none => p
  let p := match p.tags with
           | some ts =>
               if intSetOf document.tags = intSetOf ts
               then { p with tags := none } else p
           | none => p
  p

/-! ### Document-store client

`PaperlessClient._request` is modelled at two granularities.  For the
retry/backoff behaviour (`http_request` below) an oracle gives the outcome
of each individual HTTP attempt.  Inside the orchestrator, whole-`_request`
outcomes are abstracted by per-call oracles (`patchRes`, `createRes`, ...),
and the observable requests are accumulated in a call trace. -/

/-- Result of one `_request` invocation: the final outcome, the number of
HTTP attempts actually performed, and the `time.sleep` durations executed
(in seconds). -/
structure ReqOutcome where
  result : Except DocErr JObj
  attemptsUsed : ℕ
  sleeps : List ℚ
deriving Repr

/-- Retry loop of `PaperlessClient._request`: `k` is the 1-based number of
the next attempt, `n` the number of attempts still allowed.  A failed
attempt (transport error, malformed body, or HTTP status ≥ 400, collapsed
into the oracle's error message) logs and sleeps `0.5 * 2^(attempt-1)`
seconds; when the attempts are exhausted a `PaperlessApiError` carrying the
last underlying error is raised. -/
def requestLoop (method path : String) (attempt : ℕ → Except String JObj) :
    ℕ → ℕ → Option String → ReqOutcome
  | _, 0, lastError =>
      ⟨.error (.apiError ("Request dauerhaft fehlgeschlagen: " ++ method ++ " " ++ path ++
          " | Letzter Fehler: " ++ lastError.getD "None")), 0, []⟩
  | k, n + 1, _ =>
      match attempt k with
      | .ok body => ⟨.ok body, 1, []⟩
      | .error e =>
          let slp : ℚ := (1 / 2) * 2 ^ (k - 1)
          let r := requestLoop method path attempt (k + 1) n (some e)
          ⟨r.result, r.attemptsUsed + 1, slp :: r.sleeps⟩

/-- Translation of `PaperlessClient._request` with its `retries` bound
(default 3): attempt outcomes are supplied by the oracle `attempt`. -/
def http_request (method path : String) (retries : ℕ)
    (attempt : ℕ → Except String JObj) : ReqOutcome :=
  requestLoop method path attempt 1 retries none

/-- One `_request` call as issued by `create_entity`, for the call trace. -/
structure HttpCall where
  method : String
  path : String
  payload : JObj
  retries : ℕ
  outcome : ReqOutcome
deriving Repr

/-- Models Python `int(v)` on a JSON value: floats truncate toward zero,
strings parse as signed integers (`ValueError` on failure), bools coerce,
`None`/lists raise `TypeError`. -/
def pyIntOfJVal : JVal → Except DocErr ℤ
  | .jnum q => .ok (if q < 0 then -((-q).floor) else q.floor)
  | .jbool b => .ok (if b then 1 else 0)
  | .jstr s =>
      (match (pyStrip s).data with
       | '-' :: core =>
           if !core.isEmpty && core.all Char.isDigit then .ok (-(digitsVal core : ℤ))
           else .error (.valueError ("invalid literal for int(): " ++ s))
       | core =>
           if !core.isEmpty && core.all Char.isDigit then .ok ((digitsVal core : ℤ))
           else .error (.valueError ("invalid literal for int(): " ++ s)))
  | .jnull => .error (.uncaught "TypeError: int() argument must not be NoneType")
  | .jlist _ => .error (.uncaught "TypeError: int() argument must not be list")

/-- Inner loop of the storage-path branch of `create_entity`: tries the
payload shapes in order, each by one `_request` with `retries=1`; a
`PaperlessApiError` (from the request or from a missing `id`) is caught and
remembered as the last error, while any other exception from `int()`
propagates. -/
def createStoragePathLoop (name : String) (lastExc : DocErr) :
    List (JObj × (ℕ → Except String JObj)) → List HttpCall × Except DocErr ℤ
  | [] =>
      ([], .error (.apiError ("Storage Path konnte nicht erstellt werden (" ++ name ++
          "). Letzter Fehler: " ++ lastExc.msg)))
  | (payload, attempt) :: rest =>
      let out := http_request "POST" "/api/storage_paths/" 1 attempt
      let call : HttpCall := ⟨"POST", "/api/storage_paths/", payload, 1, out⟩
      match out.result with
      | .error e =>
          let (calls, res) := createStoragePathLoop name e rest
          (call :: calls, res)
      | .ok created =>
          match jget created "id" with
          | none =>
              let e : DocErr := .apiError ("Storage Path erstellt ohne ID: /api/storage_paths/ | " ++ name)
              let (calls, res) := createStoragePathLoop name e rest
              (call :: calls, res)
          | some .jnull =>
              let e : DocErr := .apiError ("Storage Path erstellt ohne ID: /api/storage_paths/ | " ++ name)
              let (calls, res) := createStoragePathLoop name e rest
              (call :: calls, res)
          | some idVal =>
              match pyIntOfJVal idVal with
              | .ok i => ([call], .ok i)
              | .error e => ([call], .error e)

/-- Translation of `PaperlessClient.create_entity` at the `_request`
granularity.  For `/api/storage_paths/` three payload shapes are tried,
each with `retries=1` (attempt oracles `a1`, `a2`, `a3`); every other
endpoint issues a single `{name: ...}` POST with the default `retries=3`
and fails with a `PaperlessApiError` when no id is returned. -/
def create_entity (path name : String)
    (a1 a2 a3 : ℕ → Except String JObj) : List HttpCall × Except DocErr ℤ :=
  if path == "/api/storage_paths/" then
    createStoragePathLoop name (.apiError "None")
      [([("name", .jstr name), ("path", .jstr name)], a1),
       ([("path", .jstr name)], a2),
       ([("name", .jstr name)], a3)]
  else
    let out := http_request "POST" path 3 a1
    let call : HttpCall := ⟨"POST", path, [("name", .jstr name)], 3, out⟩
    match out.result with
    | .error e => ([call], .error e)
    | .ok created =>
        match jget created "id" with
        | none =>
            ([call], .error (.apiError ("Entity wurde erstellt, aber ohne ID zurückgegeben: " ++
                path ++ " | " ++ name)))
        | some .jnull =>
            ([call], .error (.apiError ("Entity wurde erstellt, aber ohne ID zurückgegeben: " ++
                path ++ " | " ++ name)))
        | some idVal =>
            match pyIntOfJVal idVal with
            | .ok i => ([call], .ok i)
            | .error e => ([call], .error e)

/-! ### `update_document` fallback cascade -/

/-- Fallback payloads built when the full patch fails with HTTP 500: minus
`created`, minus `tags`, minus both — each only when the removed keys are
present. -/
def upd_fallback_candidates (patch : PatchPayload) : List PatchPayload :=
  (if patch.created.isSome then [removeCreated patch] else []) ++
  (if patch.tags.isSome then [removeTags patch] else []) ++
  (if patch.created.isSome && patch.tags.isSome then [removeTags (removeCreated patch)]
   else [])

/-- Fallback loop of `update_document`: skips empty and already-tried
candidates, attempts each remaining one by a `PATCH` with `retries=1`, and
stops at the first success.  Returns the attempted payloads, whether one
succeeded, and the last error seen.  (Candidate identity stands in for the
sorted-JSON signature: equal dicts have equal signatures.) -/
def tryFallbacks (patchRes : PatchPayload → ℕ → Except DocErr Unit)
    (tried : List PatchPayload) (lastError : DocErr) :
    List PatchPayload → List (PatchPayload × ℕ) × Bool × DocErr
  | [] => ([], false, lastError)
  | c :: rest =>
      if patchIsEmpty c then tryFallbacks patchRes tried lastError rest
      else if tried.contains c then tryFallbacks patchRes tried lastError rest
      else
        match patchRes c 1 with
        | .ok _ => ([(c, 1)], true, lastError)
        | .error e =>
            let r := tryFallbacks patchRes (c :: tried) e rest
            ((c, 1) :: r.1, r.2.1, r.2.2)

/-- Singleton payload `{key: patch[key]}` for the field-by-field loop,
`none` when the key is absent from the patch. -/
def singleFieldPayload (patch : PatchPayload) (key : String) : Option PatchPayload :=
  match key with
  | "document_type" => patch.document_type.map (fun v => { document_type := some v })
  | "correspondent" => patch.correspondent.map (fun v => { correspondent := some v })
  | "storage_path" => patch.storage_path.map (fun v => { storage_path := some v })
  | "created" => patch.created.map (fun v => { created := some v })
  | "tags" => patch.tags.map (fun v => { tags := some v })
  | _ => none

/-- Field order of the one-field-at-a-time escalation. -/
def patchFieldOrder : List String :=
  ["document_type", "correspondent", "storage_path", "created", "tags"]

/-- Field-by-field loop of `update_document`: every present field is
patched on its own with `retries=1`; returns the attempted payloads,
whether any single-field patch succeeded, and the `"key: error"` failure
descriptions in field order. -/
def tryFields (patchRes : PatchPayload → ℕ → Except DocErr Unit) (patch : PatchPayload) :
    List String → List (PatchPayload × ℕ) × Bool × List String
  | [] => ([], false, [])
  | k :: rest =>
      match singleFieldPayload patch k with
      | none => tryFields patchRes patch rest
      | some sp =>
          let r := tryFields patchRes patch rest
          match patchRes sp 1 with
          | .ok _ => ((sp, 1) :: r.1, true, r.2.2)
          | .error e => ((sp, 1) :: r.1, r.2.1, (k ++ ": " ++ e.msg) :: r.2.2)

/-- Translation of `PaperlessClient.update_document`.  The oracle
`patchRes` gives the overall outcome of a `PATCH` `_request` for a given
payload and retry bound.  The full patch is sent with `retries=3`; on a
failure whose text does not mention HTTP 500 the error is re-raised as-is;
otherwise the fallback payloads are tried in order, then each field on its
own, succeeding if any attempt succeeds and otherwise raising a
`PaperlessApiError` that reports the per-field failures.  The returned
list is the trace of attempted payloads with their retry bounds. -/
def update_document (patchRes : PatchPayload → ℕ → Except DocErr Unit)
    (patch_payload : PatchPayload) : List (PatchPayload × ℕ) × Except DocErr Unit :=
  match patchRes patch_payload 3 with
  | .ok _ => ([(patch_payload, 3)], .ok ())
  | .error exc =>
      if !containsSub exc.msg "HTTP 500" then ([(patch_payload, 3)], .error exc)
      else
        let fb := tryFallbacks patchRes [] exc (upd_fallback_candidates patch_payload)
        if fb.2.1 then ((patch_payload, 3) :: fb.1, .ok ())
        else
          let fl := tryFields patchRes patch_payload patchFieldOrder
          let trace := (patch_payload, 3) :: fb.1 ++ fl.1
          if fl.2.1 then (trace, .ok ())
          else
            let fieldFailureText :=
              if fl.2.2.isEmpty then "keine" else String.intercalate "; " fl.2.2
            (trace, .error (.apiError (exc.msg ++ " | Fallback-PATCH ebenfalls fehlgeschlagen: " ++
                fb.2.2.msg ++ " | Feldanalyse: " ++ fieldFailureText)))

/-! ### Run metrics -/

/-- The `last_run` block of the metrics file. -/
structure LastRun where
  prompt_tokens : ℤ := 0
  completion_tokens : ℤ := 0
  total_tokens : ℤ := 0
  cost_eur : ℚ := 0
  finished_at : Option String := none
  model : Option String := none
deriving DecidableEq, Repr

/-- The `totals` block of the metrics file. -/
structure Totals where
  prompt_tokens : ℤ := 0
  completion_tokens : ℤ := 0
  total_tokens : ℤ := 0
  cost_eur : ℚ := 0
  runs : ℤ := 0
deriving DecidableEq, Repr

/-- Persisted metrics payload. -/
structure Metrics where
  last_run : LastRun := {}
  totals : Totals := {}
deriving DecidableEq, Repr

/-- Defaults of `load_metrics` for a missing or unreadable file. -/
def defaultMetrics : Metrics := {}

/-- Translation of `load_metrics`: the stored file content (modelled as an
already-decoded well-formed payload, `none` for a missing/corrupt file) or
the defaults. -/
def load_metrics (stored : Option Metrics) : Metrics :=
  stored.getD defaultMetrics

/-- Models `save_metrics`: the payload becomes the new file content. -/
def save_metrics (payload : Metrics) : Option Metrics :=
  some payload

/-- Round-half-to-even on rationals, the tie rule of Python `round`.
(`round` on floats rounds the exact binary value; here cost arithmetic is
exact rational arithmetic.) -/
def roundHalfEven (q : ℚ) : ℤ :=
  if q - ⌊q⌋ < 1 / 2 then ⌊q⌋
  else if 1 / 2 < q - ⌊q⌋ then ⌊q⌋ + 1
  else if ⌊q⌋ % 2 = 0 then ⌊q⌋ else ⌊q⌋ + 1

/-- Models Python `round(x, 6)`. -/
def pyRound6 (q : ℚ) : ℚ :=
  (roundHalfEven (q * 1000000) : ℚ) / 1000000

/-- End-of-run metrics computation of `process_documents` (lines building
`metrics_payload`): the `last_run` block is this run's accumulators, the
`totals` block adds them onto the loaded totals and increments the run
counter; both cost figures pass through `round(_, 6)`. -/
def finalize_metrics (existing : Metrics) (runPrompt runCompletion runTotal : ℤ)
    (runCost : ℚ) (finishedAt model : String) : Metrics :=
  { last_run :=
      { prompt_tokens := runPrompt
        completion_tokens := runCompletion
        total_tokens := runTotal
        cost_eur := pyRound6 runCost
        finished_at := some finishedAt
        model := some model }
    totals :=
      { prompt_tokens := existing.totals.prompt_tokens + runPrompt
        completion_tokens := existing.totals.completion_tokens + runCompletion
        total_tokens := existing.totals.total_tokens + runTotal
        cost_eur := pyRound6 (existing.totals.cost_eur + runCost)
        runs := existing.totals.runs + 1 } }

/-! ### Orchestrator state -/

/-- Observable requests issued to the remote services while processing
documents.  `patchDocCall` is one `PATCH /api/documents/{id}/` attempt
from `update_document` (with its retry bound); `markErrorTagsCall` is the
direct single-shot error-tag `PATCH`; note texts are pure string
formatting with no bearing on any modelled property and are not carried. -/
inductive StoreCall where
  | classifyCall (docId : Option ℤ)
  | createEntityCall (endpoint name : String)
  | patchDocCall (docId : ℤ) (payload : PatchPayload) (retries : ℕ)
  | markErrorTagsCall (docId : ℤ) (tags : List ℤ) (retries : ℕ)
  | addNoteCall (docId : ℤ)
deriving DecidableEq, Repr

/-- Whether the call writes to the document store (anything except the
classification request). -/
def StoreCall.isWrite : StoreCall → Bool
  | .classifyCall _ => false
  | _ => true

/-- Whether the call is a write-back of a classification patch. -/
def StoreCall.isDocPatch : StoreCall → Bool
  | .patchDocCall _ _ _ => true
  | _ => false

/-- Whether the call is the error-marking tag `PATCH`. -/
def StoreCall.isMark : StoreCall → Bool
  | .markErrorTagsCall _ _ _ => true
  | _ => false

/-- One entry of `error_details`. -/
structure ErrorRecord where
  id : Option ℤ
  title : String
  error_type : String
  message : String
  patch_payload : Option PatchPayload
deriving DecidableEq, Repr

/-- Mutable state of one `process_documents` invocation: counters, the four
entity mappings, created-entity and error reports, the quarantine dicts,
the token/cost accumulators, and the trace of issued store calls. -/
structure ScanState where
  scanned : ℕ := 0
  updated : ℕ := 0
  skipped : ℕ := 0
  failed : ℕ := 0
  tags_map : List (String × ℤ) := []
  doc_types_map : List (String × ℤ) := []
  correspondents_map : List (String × ℤ) := []
  storage_paths_map : List (String × ℤ) := []
  created_entities : List (String × String) := []
  error_details : List ErrorRecord := []
  failed_docs_until : List (String × ℚ) := []
  failed_patch_cache : List (String × PatchPayload) := []
  run_prompt_tokens : ℤ := 0
  run_completion_tokens : ℤ := 0
  run_total_tokens : ℤ := 0
  run_cost_eur : ℚ := 0
  calls : List StoreCall := []
deriving DecidableEq, Repr

/-- Configuration fields of `AppConfig` the modelled pipeline reads. -/
structure AppConfig where
  dry_run : Bool := false
  create_missing_entities : Bool := true
  confidence_threshold : ℚ := 7 / 10
  enable_ai_notes : Bool := true
  process_only_tag : String := ""
  ai_model : String := ""
  input_cost_per_1k_tokens_eur : ℚ := 0
  output_cost_per_1k_tokens_eur : ℚ := 0
  quarantine_failed_documents : Bool := true
  failed_document_cooldown_hours : ℤ := 24
  failed_tags_only_cooldown_hours : ℤ := 168
deriving DecidableEq, Repr

/-- Per-run derived context computed before the document loop. -/
structure RunCtx where
  ki_tag_id : Option ℤ := none
  error_tag_id : Option ℤ := none
  remove_neu_tag_id : Option ℤ := none
  only_tag_id : Option ℤ := none
  process_all_documents : Bool := false
  cooldown_seconds : ℤ := 0
  tags_only_cooldown_seconds : ℤ := 0
deriving DecidableEq, Repr

/-- Oracles for one document's interaction with the remote services:
`now` is the wall clock during this document's processing (single-threaded,
modelled as one instant per document), `classifyRaw` the outcome of the
classification HTTP exchange (transport/extraction failures arrive wrapped
as `AiClassificationError`), `createRes`/`patchRes`/`markRes`/`noteRes`
the whole-`_request` outcomes of entity creation, document `PATCH`es, the
error-tag `PATCH` and the notes `POST`. -/
structure DocOracle where
  now : ℚ := 0
  classifyRaw : Except DocErr (JObj × Usage) := .error (.aiError "")
  createRes : String → String → Except DocErr ℤ := fun _ _ => .error (.apiError "")
  patchRes : PatchPayload → ℕ → Except DocErr Unit := fun _ _ => .ok ()
  markRes : List ℤ → Except DocErr Unit := fun _ => .ok ()
  noteRes : Except DocErr Unit := .ok ()

/-! ### Entity resolver and patch builder -/

/-- Result of `ensure_entity_id`: the possibly-extended mapping and
created-entity report, the issued calls, and the resolved id (`none`
meaning "leave the field unset") or the propagated creation error. -/
structure ResolveOut where
  calls : List StoreCall
  mapping : List (String × ℤ)
  created_entities : List (String × String)
  result : Except DocErr (Option ℤ)

/-- Translation of `ensure_entity_id`: falsy or blank names resolve to
"absent"; a cache hit returns the stored id; a miss with creation disabled
logs and returns "absent"; a miss with creation enabled calls
`create_entity`, stores the id under the stripped lower-cased key and
records the creation. -/
def ensure_entity_id (createRes : String → String → Except DocErr ℤ)
    (mapping : List (String × ℤ)) (name : Option String) (endpoint : String)
    (create_missing : Bool) (created_entities : List (String × String))
    (calls : List StoreCall) : ResolveOut :=
  match name with
  | none => ⟨calls, mapping, created_entities, .ok none⟩
  | some n =>
      if n == "" then ⟨calls, mapping, created_entities, .ok none⟩
      else
        let key := pyLower (pyStrip n)
        if key == "" then ⟨calls, mapping, created_entities, .ok none⟩
        else
          match dget mapping key with
          | some i => ⟨calls, mapping, created_entities, .ok (some i)⟩
          | none =>
              if !create_missing then ⟨calls, mapping, created_entities, .ok none⟩
              else
                let calls := calls ++ [.createEntityCall endpoint (pyStrip n)]
                match createRes endpoint (pyStrip n) with
                | .error e => ⟨calls, mapping, created_entities, .error e⟩
                | .ok cid =>
                    ⟨calls, dset mapping key cid,
                     created_entities ++ [(endpoint, pyStrip n)], .ok (some cid)⟩

/-- View of a raw prediction field as the `Optional[str]` argument
`ensure_entity_id` receives: null/absent is `None`, a string passes
through, a falsy non-string short-circuits to "absent" inside
`ensure_entity_id` anyway, and a truthy non-string would crash Python at
`.strip()` with an uncaught `AttributeError`. -/
def asNameArg : Option JVal → Except DocErr (Option String)
  | none => .ok none
  | some .jnull => .ok none
  | some (.jstr s) => .ok (some s)
  | some v =>
      if pyTruthy v then .error (.uncaught "AttributeError: strip")
      else .ok none

/-- Wrapper of `normalize_iso_date` on a raw JSON field
(`prediction.get("document_date")`): falsy values normalize to `None`,
anything else is stringified first. -/
def normalize_iso_date_j (value : Option JVal) : Option String :=
  match value with
  | none => none
  | some v => if !pyTruthy v then none else normalize_iso_date (some (pyStr v))

/-- Result of `build_patch_payload`: updated mappings, created-entity
report and calls, plus the payload or the propagated creation error. -/
structure BuildOut where
  calls : List StoreCall
  tags_map : List (String × ℤ)
  doc_types_map : List (String × ℤ)
  correspondents_map : List (String × ℤ)
  storage_paths_map : List (String × ℤ)
  created_entities : List (String × String)
  result : Except DocErr PatchPayload

/-- Tag-resolution loop of `build_patch_payload`: each tag label is
stringified and resolved independently; only successful resolutions are
collected. -/
def resolveTagIds (createRes : String → String → Except DocErr ℤ)
    (create_missing : Bool) :
    List JVal → List (String × ℤ) → List (String × String) → List StoreCall →
    List StoreCall × List (String × ℤ) × List (String × String) × Except DocErr (List ℤ)
  | [], tags_map, created, calls => (calls, tags_map, created, .ok [])
  | t :: rest, tags_map, created, calls =>
      let r := ensure_entity_id createRes tags_map (some (pyStr t)) "/api/tags/"
        create_missing created calls
      match r.result with
      | .error e => (r.calls, r.mapping, r.created_entities, .error e)
      | .ok idOpt =>
          let rr := resolveTagIds createRes create_missing rest r.mapping
            r.created_entities r.calls
          match rr.2.2.2 with
          | .error e => (rr.1, rr.2.1, rr.2.2.1, .error e)
          | .ok ids =>
              (rr.1, rr.2.1, rr.2.2.1,
               .ok (match idOpt with | some i => i :: ids | none => ids))

/-- Translation of `build_patch_payload`: resolves type, correspondent and
storage path (in that order), then each tag label; tag ids are
deduplicated and sorted; a parseable `document_date` becomes the `created`
field.  A creation failure propagates with the state reached so far. -/
def build_patch_payload (createRes : String → String → Except DocErr ℤ)
    (prediction : JObj) (tags_map doc_types_map correspondents_map
    storage_paths_map : List (String × ℤ)) (create_missing_entities : Bool)
    (created_entities : List (String × String)) (calls : List StoreCall) : BuildOut :=
  match asNameArg (jget prediction "document_type") with
  | .error e => ⟨calls, tags_map, doc_types_map, correspondents_map, storage_paths_map,
      created_entities, .error e⟩
  | .ok dtName =>
    let r1 := ensure_entity_id createRes doc_types_map dtName "/api/document_types/"
      create_missing_entities created_entities calls
    match r1.result with
    | .error e => ⟨r1.calls, tags_map, r1.mapping, correspondents_map, storage_paths_map,
        r1.created_entities, .error e⟩
    | .ok doc_type_id =>
      match asNameArg (jget prediction "correspondent") with
      | .error e => ⟨r1.calls, tags_map, r1.mapping, correspondents_map, storage_paths_map,
          r1.created_entities, .error e⟩
      | .ok coName =>
        let r2 := ensure_entity_id createRes correspondents_map coName "/api/correspondents/"
          create_missing_entities r1.created_entities r1.calls
        match r2.result with
        | .error e => ⟨r2.calls, tags_map, r1.mapping, r2.mapping, storage_paths_map,
            r2.created_entities, .error e⟩
        | .ok correspondent_id =>
          match asNameArg (jget prediction "storage_path") with
          | .error e => ⟨r2.calls, tags_map, r1.mapping, r2.mapping, storage_paths_map,
              r2.created_entities, .error e⟩
          | .ok spName =>
            let r3 := ensure_entity_id createRes storage_paths_map spName "/api/storage_paths/"
              create_missing_entities r2.created_entities r2.calls
            match r3.result with
            | .error e => ⟨r3.calls, tags_map, r1.mapping, r2.mapping, r3.mapping,
                r3.created_entities, .error e⟩
            | .ok storage_path_id =>
              -- validation guarantees `tags` is a list before build is
              -- reached; other shapes are outside the modelled scope
              let tagVals : List JVal :=
                match jget prediction "tags" with
                | some (.jlist xs) => xs
                | _ => []
              let rt := resolveTagIds createRes create_missing_entities tagVals tags_map
                r3.created_entities r3.calls
              match rt.2.2.2 with
              | .error e => ⟨rt.1, rt.2.1, r1.mapping, r2.mapping, r3.mapping,
                  rt.2.2.1, .error e⟩
              | .ok tag_ids =>
                  let payload : PatchPayload :=
                    { document_type := doc_type_id
                      correspondent := correspondent_id
                      storage_path := storage_path_id
                      tags := if tag_ids.isEmpty then none
                              else some (intSetOf tag_ids)
                      created := normalize_iso_date_j (jget prediction "document_date") }
                  ⟨rt.1, rt.2.1, r1.mapping, r2.mapping, r3.mapping, rt.2.2.1, .ok payload⟩

/-! ### Per-document processing -/

/-- Outcome of the `try` body of the document loop: `done` covers both a
successful update and an in-`try` skip (`continue`); `raised` carries the
exception and the value of `patch_payload_for_error` at raise time. -/
inductive TryOut where
  | done
  | raised (e : DocErr) (patchForError : Option PatchPayload)
deriving Repr

/-- Translation of the `try` body of the document loop (unlock quarantine,
classify, sanitize, accumulate usage/cost, confidence gate, build patch,
forced tag rules, diff filter, dry-run log or write-back plus note, clear
the patch cache, count the update). -/
def attemptDoc (cfg : AppConfig) (ctx : RunCtx) (st : ScanState) (doc : Document)
    (o : DocOracle) (docId : Option ℤ) (docKey : Option String) (docTags : List ℤ) :
    ScanState × TryOut :=
  -- unlock the quarantine record for this fresh attempt
  let st :=
    match docKey with
    | some k =>
        if cfg.quarantine_failed_documents then
          { st with failed_docs_until := dpop st.failed_docs_until k }
        else st
    | none => st
  let st := { st with calls := st.calls ++ [.classifyCall docId] }
  match classify o.classifyRaw with
  | .error e => (st, .raised e none)
  | .ok (rawPrediction, usage) =>
    let prediction := sanitize_prediction rawPrediction st.storage_paths_map
    let u := extract_usage usage
    let st := { st with
      run_prompt_tokens := st.run_prompt_tokens + u.1
      run_completion_tokens := st.run_completion_tokens + u.2.1
      run_total_tokens := st.run_total_tokens + u.2.2
      run_cost_eur := st.run_cost_eur +
        (u.1 : ℚ) / 1000 * cfg.input_cost_per_1k_tokens_eur +
        (u.2.1 : ℚ) / 1000 * cfg.output_cost_per_1k_tokens_eur }
    match (match jget prediction "confidence" with
           | none => Except.error (DocErr.uncaught "KeyError: confidence")
           | some v => pyFloat v) with
    | .error e => (st, .raised e none)
    | .ok confidence =>
      if confidence < cfg.confidence_threshold then
        ({ st with skipped := st.skipped + 1 }, .done)
      else
        let can_create := cfg.create_missing_entities && !cfg.dry_run
        let b := build_patch_payload o.createRes prediction st.tags_map st.doc_types_map
          st.correspondents_map st.storage_paths_map can_create st.created_entities st.calls
        let st := { st with
          calls := b.calls
          tags_map := b.tags_map
          doc_types_map := b.doc_types_map
          correspondents_map := b.correspondents_map
          storage_paths_map := b.storage_paths_map
          created_entities := b.created_entities }
        match b.result with
        | .error e => (st, .raised e none)
        | .ok patch0 =>
          if patchIsEmpty patch0 then ({ st with skipped := st.skipped + 1 }, .done)
          else
            let patch1 := apply_forced_tag_rules patch0 docTags ctx.ki_tag_id
              ctx.remove_neu_tag_id
            let patch2 := filter_unchanged_patch_fields doc patch1
            if patchIsEmpty patch2 then ({ st with skipped := st.skipped + 1 }, .done)
            else
              -- note text construction is pure formatting (not modelled)
              let finishOk (st : ScanState) : ScanState × TryOut :=
                let st :=
                  match docKey with
                  | some k =>
                      if cfg.quarantine_failed_documents then
                        { st with failed_patch_cache := dpop st.failed_patch_cache k }
                      else st
                  | none => st
                ({ st with updated := st.updated + 1 }, .done)
              if cfg.dry_run then finishOk st
              else
                match docId with
                | none =>
                    (st, .raised (.uncaught "TypeError: int() argument must not be NoneType")
                      (some patch2))
                | some i =>
                    let ud := update_document o.patchRes patch2
                    let st := { st with
                      calls := st.calls ++ ud.1.map (fun pr => .patchDocCall i pr.1 pr.2) }
                    match ud.2 with
                    | .error e => (st, .raised e (some patch2))
                    | .ok _ =>
                        if cfg.enable_ai_notes then
                          let st := { st with calls := st.calls ++ [.addNoteCall i] }
                          match o.noteRes with
                          | .ok _ => finishOk st
                          | .error e =>
                              if e.isApiError then finishOk st
                              else (st, .raised e (some patch2))
                        else finishOk st

/-- Forced tag set of the error marking: the current tags minus the
`#neu` tag plus the `KI_FEHLER` and `KI` tags (each only when its id is
known), in that order. -/
def errorMarkTags (ctx : RunCtx) (docTags : List ℤ) : List ℤ :=
  let new_tags := docTags
  let new_tags :=
    match ctx.remove_neu_tag_id with
    | some n => eraseInt new_tags n
    | none => new_tags
  let new_tags :=
    match ctx.error_tag_id with
    | some t => insertInt t new_tags
    | none => new_tags
  match ctx.ki_tag_id with
  | some t => insertInt t new_tags
  | none => new_tags

/-- Error-tag marking of the failure handler: outside dry run, for a known
document id, when the computed tag set differs from the current one, one
single-shot (`retries=1`) tags `PATCH` is issued; a `PaperlessApiError`
from it is logged and swallowed, anything else propagates. -/
def markStep (cfg : AppConfig) (ctx : RunCtx) (st : ScanState) (docId : Option ℤ)
    (docTags : List ℤ) (o : DocOracle) : ScanState × Option DocErr :=
  if !cfg.dry_run then
    match docId with
    | some i =>
        let new_tags := errorMarkTags ctx docTags
        if new_tags ≠ docTags then
          let st := { st with
            calls := st.calls ++ [.markErrorTagsCall i new_tags 1] }
          match o.markRes new_tags with
          | .ok _ => (st, none)
          | .error me => if me.isApiError then (st, none) else (st, some me)
        else (st, none)
    | none => (st, none)
  else (st, none)

/-- Error note of the failure handler: outside dry run, for a known
document id, one notes `POST`; a `PaperlessApiError` is logged and
swallowed, anything else propagates. -/
def noteStep (cfg : AppConfig) (st : ScanState) (docId : Option ℤ) (o : DocOracle) :
    ScanState × Option DocErr :=
  if !cfg.dry_run then
    match docId with
    | some i =>
        let st := { st with calls := st.calls ++ [.addNoteCall i] }
        match o.noteRes with
        | .ok _ => (st, none)
        | .error ne => if ne.isApiError then (st, none) else (st, some ne)
    | none => (st, none)
  else (st, none)

/-- Annotation phase of the failure handler: the error-tag marking, then
the error note, then the error record; an exception the handler fails to
catch aborts before the record is appended. -/
def failureAnnotate (cfg : AppConfig) (ctx : RunCtx) (st : ScanState)
    (docId : Option ℤ) (title : String) (docTags : List ℤ)
    (patchForError : Option PatchPayload) (e : DocErr) (o : DocOracle) :
    ScanState × Option DocErr :=
  match markStep cfg ctx st docId docTags o with
  | (st, some ce) => (st, some ce)
  | (st, none) =>
      match noteStep cfg st docId o with
      | (st, some ce) => (st, some ce)
      | (st, none) =>
          ({ st with error_details := st.error_details ++
              [⟨docId, title, e.typeName, e.msg, patchForError⟩] }, none)

/-- Quarantine transition of the failure handler: when quarantining is
enabled and the general cooldown positive, the retry-not-before timestamp
is set to now plus the cooldown — or plus the longer tags-only cooldown
when the attempted patch was tags-only, the error text carries the
tags-only marker, and that cooldown is configured longer, in which case
the attempted patch is also cached. -/
def quarantineOnFailure (cfg : AppConfig) (ctx : RunCtx) (st : ScanState)
    (docKey : Option String) (patchForError : Option PatchPayload) (e : DocErr)
    (o : DocOracle) : ScanState :=
  match docKey with
  | some k =>
      if cfg.quarantine_failed_documents && decide (ctx.cooldown_seconds > 0) then
        let tags_only_patch :=
          match patchForError with
          | some p => !patchIsEmpty p && patchIsTagsOnly p
          | none => false
        let useTagsOnly := tags_only_patch && containsSub e.msg "Feldanalyse: tags:" &&
          decide (ctx.tags_only_cooldown_seconds > ctx.cooldown_seconds)
        let retry_delay_seconds :=
          if useTagsOnly then ctx.tags_only_cooldown_seconds else ctx.cooldown_seconds
        let new_until := dset st.failed_docs_until k (o.now + (retry_delay_seconds : ℚ))
        let st :=
          if useTagsOnly then
            match patchForError with
            | some p => { st with failed_patch_cache := dset st.failed_patch_cache k p }
            | none => st
          else st
        { st with failed_docs_until := new_until }
      else st
  | none => st

/-- Translation of the `except (AiClassificationError, PaperlessApiError,
ValueError)` handler of the document loop: counts the failure, applies the
quarantine transition, then annotates the document via
`failureAnnotate`. -/
def handleDocFailure (cfg : AppConfig) (ctx : RunCtx) (st : ScanState)
    (docId : Option ℤ) (docKey : Option String) (title : String) (docTags : List ℤ)
    (patchForError : Option PatchPayload) (e : DocErr) (o : DocOracle) :
    ScanState × Option DocErr :=
  failureAnnotate cfg ctx
    (quarantineOnFailure cfg ctx { st with failed := st.failed + 1 } docKey
      patchForError e o)
    docId title docTags patchForError e o

/-- Outcome of processing one document: `crashed` is an exception the loop
does not catch, which aborts the whole scan. -/
inductive StepResult where
  | normal
  | crashed (e : DocErr)
deriving DecidableEq, Repr

/-- Translation of one iteration of the document loop of
`process_documents` (cached-patch retry branch, quarantine-timestamp
check, tag filter, default skip heuristic, then the `try`/`except` body). -/
def processOne (cfg : AppConfig) (ctx : RunCtx) (st : ScanState) (doc : Document)
    (o : DocOracle) : ScanState × StepResult :=
  let st := { st with scanned := st.scanned + 1 }
  let docId := doc.id
  let docKey := docId.map (fun i => toString i)
  let docTags := intSetOf doc.tags
  let cacheEntry : Option (String × PatchPayload) :=
    if cfg.quarantine_failed_documents then
      match docKey with
      | some k => (dget st.failed_patch_cache k).map (fun p => (k, p))
      | none => none
    else none
  match cacheEntry with
  | some (k, retry_payload) =>
      -- retry without classification, straight to write-back
      if cfg.dry_run then ({ st with skipped := st.skipped + 1 }, .normal)
      else
        (match docId with
         | none => (st, .crashed (.uncaught "TypeError: int() argument must not be NoneType"))
         | some i =>
             let ud := update_document o.patchRes retry_payload
             let st := { st with
               calls := st.calls ++ ud.1.map (fun pr => .patchDocCall i pr.1 pr.2) }
             match ud.2 with
             | .ok _ =>
                 ({ st with
                     failed_patch_cache := dpop st.failed_patch_cache k
                     failed_docs_until := dpop st.failed_docs_until k
                     updated := st.updated + 1 }, .normal)
             | .error retryExc =>
                 if retryExc.isApiError then
                   let retry_after_ts := o.now +
                     ((max ctx.cooldown_seconds ctx.tags_only_cooldown_seconds : ℤ) : ℚ)
                   ({ st with
                       failed := st.failed + 1
                       failed_docs_until := dset st.failed_docs_until k retry_after_ts
                       error_details := st.error_details ++
                         [⟨docId, doc.title, retryExc.typeName,
                           "Retry ohne KI fehlgeschlagen: " ++ retryExc.msg,
                           some retry_payload⟩] }, .normal)
                 else (st, .crashed retryExc))
  | none =>
      let quarSkip : Bool :=
        cfg.quarantine_failed_documents &&
        (match docKey with
         | some k => decide ((dget st.failed_docs_until k).getD 0 > o.now)
         | none => false)
      if quarSkip then ({ st with skipped := st.skipped + 1 }, .normal)
      else
        -- drop a now-expired record before reprocessing
        let st :=
          if cfg.quarantine_failed_documents then
            match docKey with
            | some k =>
                if (dget st.failed_docs_until k).isSome then
                  { st with failed_docs_until := dpop st.failed_docs_until k }
                else st
            | none => st
          else st
        let tagFilterSkip : Bool :=
          !ctx.process_all_documents &&
          (match ctx.only_tag_id with
           | some t => !memInt t docTags
           | none => false)
        if tagFilterSkip then ({ st with skipped := st.skipped + 1 }, .normal)
        else
          let heuristicSkip : Bool :=
            !ctx.process_all_documents && ctx.only_tag_id.isNone &&
            !should_process_document doc
          if heuristicSkip then ({ st with skipped := st.skipped + 1 }, .normal)
          else
            match attemptDoc cfg ctx st doc o docId docKey docTags with
            | (st, .done) => (st, .normal)
            | (st, .raised e pfe) =>
                if e.isCaughtKind then
                  match handleDocFailure cfg ctx st docId docKey doc.title docTags pfe e o with
                  | (st, none) => (st, .normal)
                  | (st, some ce) => (st, .crashed ce)
                else (st, .crashed e)

/-- The document loop: processes documents in order; a `crashed` step
aborts the scan of the remaining documents (the exception propagates out
of `process_documents`). -/
def runDocs (cfg : AppConfig) (ctx : RunCtx) :
    ScanState → List (Document × DocOracle) → ScanState × Option DocErr
  | st, [] => (st, none)
  | st, (d, o) :: rest =>
      match processOne cfg ctx st d o with
      | (st, .normal) => runDocs cfg ctx st rest
      | (st, .crashed e) => (st, some e)

/-! ### Run-level orchestration -/

/-- Inputs of one `process_documents` invocation.  The preflight checks and
the paginated entity listings are modelled as already performed: the four
mappings are given, and `docs` is the document sequence the store returns
(when a tag filter is active, the server-side `tags__id` filter shapes
this sequence).  `stored_failed_docs` / `stored_patch_cache` /
`stored_metrics` are the decoded contents of the three state files. -/
structure RunInputs where
  tags_map : List (String × ℤ) := []
  doc_types_map : List (String × ℤ) := []
  correspondents_map : List (String × ℤ) := []
  storage_paths_map : List (String × ℤ) := []
  stored_failed_docs : List (String × ℚ) := []
  stored_patch_cache : List (String × PatchPayload) := []
  stored_metrics : Option Metrics := none
  startup_now : ℚ := 0
  finished_at : String := ""
  startupCreate : String → String → Except DocErr ℤ := fun _ _ => .error (.apiError "")
  docs : List (Document × DocOracle) := []
  process_all_documents : Bool := false

/-- How the invocation ended: normally, by the early `return` when the
configured filter tag does not exist, or by an exception escaping the
document loop or the startup phase. -/
inductive RunOutcome where
  | finished
  | filterTagMissing
  | crashed (e : DocErr)
deriving DecidableEq, Repr

/-- Result of one invocation: the final in-memory state and the contents
written to the three persistent files (`none` = the file was not written). -/
structure RunResult where
  state : ScanState
  saved_failed_docs : Option (List (String × ℚ)) := none
  saved_patch_cache : Option (List (String × PatchPayload)) := none
  saved_metrics : Option Metrics := none
  outcome : RunOutcome

/-- Translation of `process_documents`: loads and prunes the quarantine
state, resolves/creates the `KI` and `KI_FEHLER` tags (creation disabled
in dry run), resolves `#neu` and the optional filter tag, runs the
document loop, and finally persists the quarantine files (when
quarantining is enabled) and the accumulated metrics.  An early `return`
(missing filter tag) and a propagating exception both skip every save. -/
def process_documents (cfg : AppConfig) (inp : RunInputs) : RunResult :=
  let st : ScanState :=
    { tags_map := inp.tags_map
      doc_types_map := inp.doc_types_map
      correspondents_map := inp.correspondents_map
      storage_paths_map := inp.storage_paths_map }
  let cooldown_seconds := max 0 cfg.failed_document_cooldown_hours * 3600
  let tags_only_cooldown_seconds := max 0 cfg.failed_tags_only_cooldown_hours * 3600
  let st :=
    if cfg.quarantine_failed_documents then
      { st with
          failed_docs_until := inp.stored_failed_docs.filter
            (fun p => decide (p.2 > inp.startup_now))
          failed_patch_cache := inp.stored_patch_cache }
    else st
  let can_create_entities := cfg.create_missing_entities && !cfg.dry_run
  let r1 := ensure_entity_id inp.startupCreate st.tags_map (some "KI") "/api/tags/"
    can_create_entities st.created_entities st.calls
  let st := { st with tags_map := r1.mapping, created_entities := r1.created_entities,
                      calls := r1.calls }
  match r1.result with
  | .error e => ⟨st, none, none, none, .crashed e⟩
  | .ok ki_tag_id =>
    let r2 := ensure_entity_id inp.startupCreate st.tags_map (some "KI_FEHLER") "/api/tags/"
      can_create_entities st.created_entities st.calls
    let st := { st with tags_map := r2.mapping, created_entities := r2.created_entities,
                        calls := r2.calls }
    match r2.result with
    | .error e => ⟨st, none, none, none, .crashed e⟩
    | .ok error_tag_id =>
      let remove_neu_tag_id := dget st.tags_map "#neu"
      let only_tag_name := pyStrip cfg.process_only_tag
      let only_tag_id : Option (Option ℤ) :=
        -- outer `none` models the early `return` on a missing filter tag
        if inp.process_all_documents then some none
        else if only_tag_name != "" then
          match dget st.tags_map (pyLower only_tag_name) with
          | none => none
          | some t => some (some t)
        else some none
      match only_tag_id with
      | none => ⟨st, none, none, none, .filterTagMissing⟩
      | some onlyTag =>
        let ctx : RunCtx :=
          { ki_tag_id := ki_tag_id
            error_tag_id := error_tag_id
            remove_neu_tag_id := remove_neu_tag_id
            only_tag_id := onlyTag
            process_all_documents := inp.process_all_documents
            cooldown_seconds := cooldown_seconds
            tags_only_cooldown_seconds := tags_only_cooldown_seconds }
        match runDocs cfg ctx st inp.docs with
        | (st, some e) => ⟨st, none, none, none, .crashed e⟩
        | (st, none) =>
          let saved_failed := if cfg.quarantine_failed_documents
            then some st.failed_docs_until else none
          let saved_cache := if cfg.quarantine_failed_documents
            then some st.failed_patch_cache else none
          let existing := load_metrics inp.stored_metrics
          let metrics_payload := finalize_metrics existing st.run_prompt_tokens
            st.run_completion_tokens st.run_total_tokens st.run_cost_eur
            inp.finished_at cfg.ai_model
          ⟨st, saved_failed, saved_cache, save_metrics metrics_payload, .finished⟩

/-! ### Helper lemmas -/

/-- Auxiliary: in-place update makes the key findable with the new value. -/
theorem find?_map_update {α : Type} (k : String) (v : α) :
    ∀ d : List (String × α),
      (d.find? (fun p => p.1 == k)).isSome = true →
      (d.map (fun p => if p.1 == k then (k, v) else p)).find? (fun p => p.1 == k) =
        some (k, v)
  | [], h => by simp at h
  | p :: rest, h => by
      by_cases hpk : (p.1 == k) = true
      · have hh : (if p.1 == k then (k, v) else p) = (k, v) := by simp [hpk]
        simp only [List.map_cons, hh]
        exact List.find?_cons_of_pos _ (by simp)
      · have hpkf : (p.1 == k) = false := by simpa using hpk
        have hrest : (rest.find? (fun p => p.1 == k)).isSome = true := by
          rw [List.find?_cons_of_neg _ (by simp [hpkf])] at h
          exact h
        have hh : (if p.1 == k then (k, v) else p) = p := by simp [hpkf]
        simp only [List.map_cons, hh]
        rw [List.find?_cons_of_neg _ (by simp [hpkf])]
        exact find?_map_update k v rest hrest

/-- Auxiliary: a search that fails on the first list continues in the
second. -/
theorem find?_append_of_none {α : Type} (p : α → Bool) :
    ∀ l₁ l₂ : List α, l₁.find? p = none → (l₁ ++ l₂).find? p = l₂.find? p
  | [], _, _ => by simp
  | a :: rest, l₂, h => by
      by_cases hpa : p a = true
      · rw [List.find?_cons_of_pos _ hpa] at h
        exact absurd h (by simp)
      · have hpaf : ¬ p a = true := hpa
        rw [List.find?_cons_of_neg _ hpaf] at h
        simp only [List.cons_append]
        rw [List.find?_cons_of_neg _ hpaf]
        exact find?_append_of_none p rest l₂ h

/-- Looking up a key right after storing it returns the stored value. -/
theorem dget_dset_self {α : Type} (d : List (String × α)) (k : String) (v : α) :
    dget (dset d k v) k = some v := by
  unfold dget dset
  by_cases h : (d.find? (fun p => p.1 == k)).isSome = true
  · rw [if_pos h, find?_map_update k v d h]
    rfl
  · rw [if_neg h]
    have hn : d.find? (fun p => p.1 == k) = none := by
      cases hd : d.find? (fun p => p.1 == k) with
      | none => rfl
      | some x => rw [hd] at h; simp at h
    rw [find?_append_of_none _ d [(k, v)] hn]
    simp [List.find?_cons_of_pos]

/-- The trace of `update_document` always starts with the full patch sent
with the default retry bound 3. -/
theorem update_document_head (patchRes : PatchPayload → ℕ → Except DocErr Unit)
    (patch : PatchPayload) :
    (update_document patchRes patch).1.head? = some (patch, 3) := by
  unfold update_document
  split
  · rfl
  · split
    · rfl
    · dsimp only
      split
      · rfl
      · split
        · rfl
        · rfl

/-- The set the claim calls the effective final tag set: the patch's
`tags` field when present, otherwise the document's current tags (both in
canonical set form). -/
def effectiveFinalTags (patch : PatchPayload) (current : List ℤ) : List ℤ :=
  match patch.tags with
  | some l => intSetOf l
  | none => current

/-! ### Claim theorems -/

/-- C1 (code_bug): the forced-tag-rule invariant fails on the code.  With
`ki_tag_id = 1`, `remove_neu_tag_id = 2`, current tags `{1}` and a patch
proposing exactly the `#neu` tag `[2]`, the computed forced set equals the
current set, so `apply_forced_tag_rules` leaves the stale model-proposed
`tags` field `[2]` in place; the diff filter keeps it (`{2} ≠ {1}`), and
the effective final tag set is `{2}` — it does not contain the `KI` tag id
and does contain the `#neu` tag id, contradicting the claimed invariant
(and the function's own docstring). -/
theorem C1_forced_tag_rules_failing_input :
    apply_forced_tag_rules { tags := some [2] } [1] (some 1) (some 2) =
      { tags := some [2] } ∧
    filter_unchanged_patch_fields { id := some 7, tags := [1] }
      (apply_forced_tag_rules { tags := some [2] } [1] (some 1) (some 2)) =
      { tags := some [2] } ∧
    effectiveFinalTags
      (apply_forced_tag_rules { tags := some [2] } [1] (some 1) (some 2)) [1] = [2] ∧
    memInt 1 (effectiveFinalTags
      (apply_forced_tag_rules { tags := some [2] } [1] (some 1) (some 2)) [1]) = false ∧
    memInt 2 (effectiveFinalTags
      (apply_forced_tag_rules { tags := some [2] } [1] (some 1) (some 2)) [1]) = true := by
  refine ⟨by decide, by decide, by decide, by decide, by decide⟩

/-- C8 (counterexample): not every network call retries up to 3 attempts.
Storage-path entity creation issues its three payload-shape `POST`s with
`retries=1`: with an attempt oracle that fails on attempt 1 and would
succeed on attempt 2, every issued call performs exactly one attempt and
the creation fails — under the claimed 3-attempt bound the second attempt
would have succeeded. -/
theorem C8_counterexample :
    (create_entity "/api/storage_paths/" "X"
        (fun k => if k == 1 then .error "HTTP 400" else .ok [("id", .jnum 9)])
        (fun k => if k == 1 then .error "HTTP 400" else .ok [("id", .jnum 9)])
        (fun k => if k == 1 then .error "HTTP 400" else .ok [("id", .jnum 9)])).1.map
      (fun c => (c.retries, c.outcome.attemptsUsed)) = [(1, 1), (1, 1), (1, 1)] ∧
    (fun k => if k == 1 then (Except.error "HTTP 400" : Except String JObj)
              else .ok [("id", .jnum 9)]) 2 = .ok [("id", .jnum 9)] ∧
    (create_entity "/api/storage_paths/" "X"
        (fun k => if k == 1 then .error "HTTP 400" else .ok [("id", .jnum 9)])
        (fun k => if k == 1 then .error "HTTP 400" else .ok [("id", .jnum 9)])
        (fun k => if k == 1 then .error "HTTP 400" else .ok [("id", .jnum 9)])).2 =
      .error (.apiError ("Storage Path konnte nicht erstellt werden (X). Letzter Fehler: " ++
        "Request dauerhaft fehlgeschlagen: POST /api/storage_paths/ | Letzter Fehler: HTTP 400")) := by
  exact ⟨rfl, rfl, rfl⟩

/-- C8 (amended): `_request` retries up to its caller-specified bound — 3
by default — sleeping `0.5 * 2^(attempt-1)` seconds after each failed
attempt, and after exhausting the bound fails with a `PaperlessApiError`
carrying the last underlying error; calls issued with a reduced bound of 1
perform a single attempt. -/
theorem C8_request_retry_behaviour (method path : String)
    (attempt : ℕ → Except String JObj) (e1 e2 e3 : String)
    (h1 : attempt 1 = .error e1) (h2 : attempt 2 = .error e2)
    (h3 : attempt 3 = .error e3) :
    http_request method path 3 attempt =
      ⟨.error (.apiError ("Request dauerhaft fehlgeschlagen: " ++ method ++ " " ++ path ++
          " | Letzter Fehler: " ++ e3)), 3, [1 / 2, 1, 2]⟩ ∧
    http_request method path 1 attempt =
      ⟨.error (.apiError ("Request dauerhaft fehlgeschlagen: " ++ method ++ " " ++ path ++
          " | Letzter Fehler: " ++ e1)), 1, [1 / 2]⟩ := by
  constructor
  · simp only [http_request, requestLoop, h1, h2, h3]
    norm_num
  · simp only [http_request, requestLoop, h1]
    norm_num

/-- C8 (witness): the retry behaviour instantiated on a concrete
always-failing oracle. -/
theorem C8_request_retry_behaviour_witness :
    http_request "GET" "/api/documents/" 3 (fun k => .error (toString k)) =
      ⟨.error (.apiError ("Request dauerhaft fehlgeschlagen: " ++ "GET" ++ " " ++
          "/api/documents/" ++ " | Letzter Fehler: " ++ "3")), 3, [1 / 2, 1, 2]⟩ ∧
    http_request "GET" "/api/documents/" 1 (fun k => .error (toString k)) =
      ⟨.error (.apiError ("Request dauerhaft fehlgeschlagen: " ++ "GET" ++ " " ++
          "/api/documents/" ++ " | Letzter Fehler: " ++ "1")), 1, [1 / 2]⟩ :=
  C8_request_retry_behaviour "GET" "/api/documents/" (fun k => .error (toString k))
    "1" "2" "3" rfl rfl rfl

/-- Rounding half-to-even never goes below the floor. -/
theorem roundHalfEven_ge_floor (q : ℚ) : ⌊q⌋ ≤ roundHalfEven q := by
  unfold roundHalfEven
  split_ifs <;> omega

/-- C9: loading persisted metrics, adding one run's accumulators, saving
and reloading yields the written payload back, totals that are
component-wise at least the previously persisted totals (the persisted
cost lies on the 6-decimal grid `save_metrics` writes, and a run
contributes nonnegative tokens and cost), a run counter incremented by
one, and a `last_run` block equal to this run's snapshot. -/
theorem C9_metrics_roundtrip (m : Metrics) (runP runC runT : ℤ) (runCost : ℚ)
    (finAt mdl : String) (k : ℤ)
    (hP : 0 ≤ runP) (hC : 0 ≤ runC) (hT : 0 ≤ runT) (hcost : 0 ≤ runCost)
    (hgrid : m.totals.cost_eur = (k : ℚ) / 1000000) :
    load_metrics (save_metrics (finalize_metrics (load_metrics (some m))
        runP runC runT runCost finAt mdl)) =
      finalize_metrics (load_metrics (some m)) runP runC runT runCost finAt mdl ∧
    m.totals.prompt_tokens ≤
      (finalize_metrics (load_metrics (some m)) runP runC runT runCost finAt mdl).totals.prompt_tokens ∧
    m.totals.completion_tokens ≤
      (finalize_metrics (load_metrics (some m)) runP runC runT runCost finAt mdl).totals.completion_tokens ∧
    m.totals.total_tokens ≤
      (finalize_metrics (load_metrics (some m)) runP runC runT runCost finAt mdl).totals.total_tokens ∧
    m.totals.cost_eur ≤
      (finalize_metrics (load_metrics (some m)) runP runC runT runCost finAt mdl).totals.cost_eur ∧
    (finalize_metrics (load_metrics (some m)) runP runC runT runCost finAt mdl).totals.runs =
      m.totals.runs + 1 ∧
    (finalize_metrics (load_metrics (some m)) runP runC runT runCost finAt mdl).last_run =
      { prompt_tokens := runP, completion_tokens := runC, total_tokens := runT,
        cost_eur := pyRound6 runCost, finished_at := some finAt, model := some mdl } := by
  have hload : load_metrics (some m) = m := rfl
  refine ⟨rfl, by simp [finalize_metrics, hload, hP], by simp [finalize_metrics, hload, hC],
    by simp [finalize_metrics, hload, hT], ?_, by simp [finalize_metrics, hload], rfl⟩
  show m.totals.cost_eur ≤ pyRound6 (m.totals.cost_eur + runCost)
  unfold pyRound6
  have hx : (m.totals.cost_eur + runCost) * 1000000 = (k : ℚ) + runCost * 1000000 := by
    rw [hgrid]; ring
  have hx0 : (0 : ℚ) ≤ runCost * 1000000 := by positivity
  have hfloor : k ≤ ⌊(m.totals.cost_eur + runCost) * 1000000⌋ := by
    rw [hx, add_comm, Int.floor_add_int]
    have : (0 : ℤ) ≤ ⌊runCost * 1000000⌋ := Int.floor_nonneg.mpr hx0
    omega
  have hr : k ≤ roundHalfEven ((m.totals.cost_eur + runCost) * 1000000) :=
    le_trans hfloor (roundHalfEven_ge_floor _)
  have hcast : (k : ℚ) ≤ (roundHalfEven ((m.totals.cost_eur + runCost) * 1000000) : ℚ) :=
    Int.cast_le.mpr hr
  calc m.totals.cost_eur = (k : ℚ) / 1000000 := hgrid
    _ ≤ (roundHalfEven ((m.totals.cost_eur + runCost) * 1000000) : ℚ) / 1000000 := by
        gcongr

/-- C9 (witness): the round trip instantiated on concrete persisted
metrics and a concrete run. -/
theorem C9_metrics_roundtrip_witness :
    load_metrics (save_metrics (finalize_metrics
        (load_metrics (some { totals := { cost_eur := (3 : ℚ) / 1000000, runs := 2 } }))
        10 5 15 (1 / 4) "2026-01-01" "gpt")) =
      finalize_metrics (load_metrics (some { totals := { cost_eur := (3 : ℚ) / 1000000, runs := 2 } }))
        10 5 15 (1 / 4) "2026-01-01" "gpt" ∧
    ({ totals := { cost_eur := (3 : ℚ) / 1000000, runs := 2 } } : Metrics).totals.prompt_tokens ≤
      (finalize_metrics (load_metrics (some { totals := { cost_eur := (3 : ℚ) / 1000000, runs := 2 } }))
        10 5 15 (1 / 4) "2026-01-01" "gpt").totals.prompt_tokens ∧
    ({ totals := { cost_eur := (3 : ℚ) / 1000000, runs := 2 } } : Metrics).totals.completion_tokens ≤
      (finalize_metrics (load_metrics (some { totals := { cost_eur := (3 : ℚ) / 1000000, runs := 2 } }))
        10 5 15 (1 / 4) "2026-01-01" "gpt").totals.completion_tokens ∧
    ({ totals := { cost_eur := (3 : ℚ) / 1000000, runs := 2 } } : Metrics).totals.total_tokens ≤
      (finalize_metrics (load_metrics (some { totals := { cost_eur := (3 : ℚ) / 1000000, runs := 2 } }))
        10 5 15 (1 / 4) "2026-01-01" "gpt").totals.total_tokens ∧
    ({ totals := { cost_eur := (3 : ℚ) / 1000000, runs := 2 } } : Metrics).totals.cost_eur ≤
      (finalize_metrics (load_metrics (some { totals := { cost_eur := (3 : ℚ) / 1000000, runs := 2 } }))
        10 5 15 (1 / 4) "2026-01-01" "gpt").totals.cost_eur ∧
    (finalize_metrics (load_metrics (some { totals := { cost_eur := (3 : ℚ) / 1000000, runs := 2 } }))
        10 5 15 (1 / 4) "2026-01-01" "gpt").totals.runs =
      ({ totals := { cost_eur := (3 : ℚ) / 1000000, runs := 2 } } : Metrics).totals.runs + 1 ∧
    (finalize_metrics (load_metrics (some { totals := { cost_eur := (3 : ℚ) / 1000000, runs := 2 } }))
        10 5 15 (1 / 4) "2026-01-01" "gpt").last_run =
      { prompt_tokens := 10, completion_tokens := 5, total_tokens := 15,
        cost_eur := pyRound6 (1 / 4), finished_at := some "2026-01-01", model := some "gpt" } :=
  C9_metrics_roundtrip { totals := { cost_eur := (3 : ℚ) / 1000000, runs := 2 } }
    10 5 15 (1 / 4) "2026-01-01" "gpt" 3 (by norm_num) (by norm_num) (by norm_num)
    (by norm_num) rfl

/-- C2 (counterexample): an unexpired quarantine timestamp does not by
itself prevent network traffic.  For a document with an unexpired record
(retry at 100, now 50) that also has a cached patch, the step issues a
document `PATCH`, leaves the skip counter untouched and removes the
record, contradicting the claim as stated. -/
def c2State : ScanState :=
  { failed_docs_until := [("7", 100)]
    failed_patch_cache := [("7", { tags := some [3] })] }

def c2Oracle : DocOracle :=
  { now := 50, patchRes := fun _ _ => .ok () }

theorem C2_counterexample :
    ((dget c2State.failed_docs_until "7").getD 0 > c2Oracle.now) ∧
    (processOne {} {} c2State { id := some 7, title := "t" } c2Oracle).1.calls =
      [.patchDocCall 7 { tags := some [3] } 3] ∧
    (processOne {} {} c2State { id := some 7, title := "t" } c2Oracle).1.skipped = 0 ∧
    dget (processOne {} {} c2State { id := some 7, title := "t" } c2Oracle).1.failed_docs_until
      "7" = none := by
  refine ⟨by decide, by decide, by decide, by decide⟩

/-- C2 (amended): for a document whose quarantine record is unexpired at
its scan step and for which no cached patch payload exists, the step skips
it without any network call, incrementing only the scanned and skip
counters and leaving all other state — including the quarantine record —
in place. -/
theorem C2_quarantine_skip (cfg : AppConfig) (ctx : RunCtx) (st : ScanState)
    (doc : Document) (o : DocOracle) (i : ℤ)
    (hq : cfg.quarantine_failed_documents = true)
    (hid : doc.id = some i)
    (hc : dget st.failed_patch_cache (toString i) = none)
    (ht : (dget st.failed_docs_until (toString i)).getD 0 > o.now) :
    processOne cfg ctx st doc o =
      ({ st with scanned := st.scanned + 1, skipped := st.skipped + 1 }, .normal) := by
  unfold processOne
  simp only [hid, Option.map_some', hq, true_and, if_true, hc, Option.map_none']
  have hd : (true && decide ((dget st.failed_docs_until (toString i)).getD 0 > o.now)) =
      true := by simp [ht]
  rw [if_pos hd]

/-- C2 (witness): the amended skip rule instantiated on a concrete
quarantined document. -/
theorem C2_quarantine_skip_witness :
    processOne {} {} { failed_docs_until := [("7", 100)] } { id := some 7 } { now := 50 } =
      ({ ({ failed_docs_until := [("7", 100)] } : ScanState) with
          scanned := ({ failed_docs_until := [("7", 100)] } : ScanState).scanned + 1,
          skipped := ({ failed_docs_until := [("7", 100)] } : ScanState).skipped + 1 },
        .normal) :=
  C2_quarantine_skip {} {} { failed_docs_until := [("7", 100)] } { id := some 7 }
    { now := 50 } 7 rfl rfl (by decide) (by decide)

/-- The marking step never touches the quarantine state, the failure
counter or the error records. -/
theorem markStep_fields (cfg : AppConfig) (ctx : RunCtx) (st : ScanState)
    (docId : Option ℤ) (docTags : List ℤ) (o : DocOracle) :
    (markStep cfg ctx st docId docTags o).1.failed_docs_until = st.failed_docs_until ∧
    (markStep cfg ctx st docId docTags o).1.failed_patch_cache = st.failed_patch_cache ∧
    (markStep cfg ctx st docId docTags o).1.failed = st.failed ∧
    (markStep cfg ctx st docId docTags o).1.error_details = st.error_details := by
  unfold markStep
  dsimp only
  repeat' (first | exact ⟨rfl, rfl, rfl, rfl⟩ | split)

/-- The note step never touches the quarantine state, the failure counter
or the error records. -/
theorem noteStep_fields (cfg : AppConfig) (st : ScanState) (docId : Option ℤ)
    (o : DocOracle) :
    (noteStep cfg st docId o).1.failed_docs_until = st.failed_docs_until ∧
    (noteStep cfg st docId o).1.failed_patch_cache = st.failed_patch_cache ∧
    (noteStep cfg st docId o).1.failed = st.failed ∧
    (noteStep cfg st docId o).1.error_details = st.error_details := by
  unfold noteStep
  dsimp only
  repeat' (first | exact ⟨rfl, rfl, rfl, rfl⟩ | split)

/-- The annotation phase never touches the quarantine state. -/
theorem failureAnnotate_quar (cfg : AppConfig) (ctx : RunCtx) (st : ScanState)
    (docId : Option ℤ) (title : String) (docTags : List ℤ) (pfe : Option PatchPayload)
    (e : DocErr) (o : DocOracle) :
    (failureAnnotate cfg ctx st docId title docTags pfe e o).1.failed_docs_until =
      st.failed_docs_until ∧
    (failureAnnotate cfg ctx st docId title docTags pfe e o).1.failed_patch_cache =
      st.failed_patch_cache := by
  unfold failureAnnotate
  cases hm : markStep cfg ctx st docId docTags o with
  | mk st1 r1 =>
    have h1 := markStep_fields cfg ctx st docId docTags o
    rw [hm] at h1
    cases r1 with
    | some ce => exact ⟨h1.1, h1.2.1⟩
    | none =>
      dsimp only
      cases hn : noteStep cfg st1 docId o with
      | mk st2 r2 =>
        have h2 := noteStep_fields cfg st1 docId o
        rw [hn] at h2
        cases r2 with
        | some ce => exact ⟨h2.1.trans h1.1, h2.2.1.trans h1.2.1⟩
        | none => exact ⟨h2.1.trans h1.1, h2.2.1.trans h1.2.1⟩

/-- The quarantine transition never issues calls. -/
theorem quarantineOnFailure_calls (cfg : AppConfig) (ctx : RunCtx) (st : ScanState)
    (docKey : Option String) (pfe : Option PatchPayload) (e : DocErr) (o : DocOracle) :
    (quarantineOnFailure cfg ctx st docKey pfe e o).calls = st.calls := by
  unfold quarantineOnFailure
  dsimp only
  repeat' (first | rfl | split)

/-- On a tags-only failure whose error text carries the field-analysis
marker, with a tags-only cooldown configured longer than the positive
general cooldown, the quarantine transition sets the retry timestamp to
now plus the tags-only cooldown and caches the attempted patch. -/
theorem quarantineOnFailure_tags_only (cfg : AppConfig) (ctx : RunCtx) (st : ScanState)
    (k : String) (p : PatchPayload) (e : DocErr) (o : DocOracle)
    (hq : cfg.quarantine_failed_documents = true)
    (hcool : ctx.cooldown_seconds > 0)
    (hlonger : ctx.tags_only_cooldown_seconds > ctx.cooldown_seconds)
    (hp : patchIsTagsOnly p = true)
    (hmsg : containsSub e.msg "Feldanalyse: tags:" = true) :
    dget (quarantineOnFailure cfg ctx st (some k) (some p) e o).failed_docs_until k =
      some (o.now + (ctx.tags_only_cooldown_seconds : ℚ)) ∧
    dget (quarantineOnFailure cfg ctx st (some k) (some p) e o).failed_patch_cache k =
      some p := by
  have hemp : patchIsEmpty p = false := by
    have htag : p.tags.isSome = true := by
      unfold patchIsTagsOnly at hp
      simp only [Bool.and_eq_true] at hp
      exact hp.1.2
    obtain ⟨tv, htv⟩ := Option.isSome_iff_exists.mp htag
    simp [patchIsEmpty, htv]
  have hc' : decide (ctx.cooldown_seconds > 0) = true := decide_eq_true hcool
  have hl' : decide (ctx.tags_only_cooldown_seconds > ctx.cooldown_seconds) = true :=
    decide_eq_true hlonger
  unfold quarantineOnFailure
  simp only [hq, hc', Bool.and_self, if_true, hemp, hp, hmsg, hl', Bool.not_false,
    Bool.and_true, Bool.true_and]
  exact ⟨dget_dset_self _ _ _, dget_dset_self _ _ _⟩

/-- C6: a per-document failure whose attempted patch is tags-only and
whose error text carries the tags-only field-analysis marker is
quarantined for the (longer) tags-only cooldown instead of the general
one, and the attempted patch payload is cached; on a later scan, a
document with a cached patch is retried by going straight to write-back —
its step issues no classification call, only document `PATCH`es starting
with the cached payload under the default retry bound. -/
theorem C6_tags_only_failure_cooldown_and_cache (cfg : AppConfig) (ctx : RunCtx)
    (st : ScanState) (docId : Option ℤ) (k title : String) (docTags : List ℤ)
    (p : PatchPayload) (e : DocErr) (o : DocOracle)
    (cfg2 : AppConfig) (ctx2 : RunCtx) (st2 : ScanState) (doc : Document)
    (o2 : DocOracle) (i : ℤ)
    (hq : cfg.quarantine_failed_documents = true)
    (hcool : ctx.cooldown_seconds > 0)
    (hlonger : ctx.tags_only_cooldown_seconds > ctx.cooldown_seconds)
    (hp : patchIsTagsOnly p = true)
    (hmsg : containsSub e.msg "Feldanalyse: tags:" = true)
    (hq2 : cfg2.quarantine_failed_documents = true)
    (hd2 : cfg2.dry_run = false)
    (hid2 : doc.id = some i)
    (hcache2 : dget st2.failed_patch_cache (toString i) = some p) :
    dget (handleDocFailure cfg ctx st docId (some k) title docTags (some p) e
        o).1.failed_docs_until k =
      some (o.now + (ctx.tags_only_cooldown_seconds : ℚ)) ∧
    dget (handleDocFailure cfg ctx st docId (some k) title docTags (some p) e
        o).1.failed_patch_cache k = some p ∧
    (processOne cfg2 ctx2 st2 doc o2).1.calls =
      st2.calls ++ (update_document o2.patchRes p).1.map
        (fun pr => .patchDocCall i pr.1 pr.2) ∧
    (update_document o2.patchRes p).1.head? = some (p, 3) ∧
    ((update_document o2.patchRes p).1.map
        (fun pr => (StoreCall.patchDocCall i pr.1 pr.2))).all
      (fun c => c.isDocPatch) = true := by
  refine ⟨?_, ?_, ?_, update_document_head _ _, ?_⟩
  · unfold handleDocFailure
    rw [(failureAnnotate_quar _ _ _ _ _ _ _ _ _).1]
    exact (quarantineOnFailure_tags_only cfg ctx _ k p e o hq hcool hlonger hp hmsg).1
  · unfold handleDocFailure
    rw [(failureAnnotate_quar _ _ _ _ _ _ _ _ _).2]
    exact (quarantineOnFailure_tags_only cfg ctx _ k p e o hq hcool hlonger hp hmsg).2
  · unfold processOne
    simp only [hid2, Option.map_some', hq2, if_true, hcache2, hd2, if_false,
      Bool.false_eq_true]
    cases hu : update_document o2.patchRes p with
    | mk tr res =>
      cases res with
      | ok u => rfl
      | error e2 =>
        by_cases ha : e2.isApiError = true
        · simp [ha]
        · simp [ha]
  · rw [List.all_eq_true]
    intro c hc
    simp only [List.mem_map] at hc
    obtain ⟨pr, _, rfl⟩ := hc
    rfl

def c6Ctx : RunCtx := { cooldown_seconds := 86400, tags_only_cooldown_seconds := 604800 }

def c6Patch : PatchPayload := { tags := some [3] }

def c6Err : DocErr := .apiError "x | Feldanalyse: tags: boom"

def c6State2 : ScanState := { failed_patch_cache := [("9", c6Patch)] }

/-- C6 (witness): the tags-only transition and the cache-retry behaviour
on concrete inputs. -/
theorem C6_tags_only_failure_witness :
    dget (handleDocFailure {} c6Ctx {} (some 9) "9" "t" [] (some c6Patch) c6Err
        {}).1.failed_docs_until "9" =
      some (({} : DocOracle).now + (c6Ctx.tags_only_cooldown_seconds : ℚ)) ∧
    dget (handleDocFailure {} c6Ctx {} (some 9) "9" "t" [] (some c6Patch) c6Err
        {}).1.failed_patch_cache "9" = some c6Patch ∧
    (processOne {} {} c6State2 { id := some 9 } {}).1.calls =
      c6State2.calls ++ (update_document ({} : DocOracle).patchRes c6Patch).1.map
        (fun pr => .patchDocCall 9 pr.1 pr.2) ∧
    (update_document ({} : DocOracle).patchRes c6Patch).1.head? = some (c6Patch, 3) ∧
    ((update_document ({} : DocOracle).patchRes c6Patch).1.map
        (fun pr => (StoreCall.patchDocCall 9 pr.1 pr.2))).all
      (fun c => c.isDocPatch) = true :=
  C6_tags_only_failure_cooldown_and_cache {} c6Ctx {} (some 9) "9" "t" [] c6Patch
    c6Err {} {} {} c6State2 { id := some 9 } {} 9
    rfl (by decide) (by decide) (by decide) (by decide) rfl rfl rfl (by decide)

/-- Membership in the canonical-set insert. -/
theorem mem_insertInt (x y : ℤ) (s : List ℤ) : x ∈ insertInt y s ↔ x = y ∨ x ∈ s := by
  induction s with
  | nil => simp [insertInt]
  | cons a rest ih =>
      unfold insertInt
      split_ifs with h1 h2
      · simp only [List.mem_cons]
        try tauto
      · subst h2
        simp only [List.mem_cons]
        try tauto
      · simp only [List.mem_cons, ih]
        try tauto

/-- Membership in the canonical-set removal. -/
theorem mem_eraseInt (x y : ℤ) (s : List ℤ) : x ∈ eraseInt s y ↔ x ∈ s ∧ x ≠ y := by
  unfold eraseInt
  simp [List.mem_filter]

/-- The error-marking tag set holds exactly the current tags other than
the `#neu` id, plus the `KI_FEHLER` and `KI` ids when known. -/
theorem mem_errorMarkTags (ctx : RunCtx) (docTags : List ℤ) (x : ℤ) :
    x ∈ errorMarkTags ctx docTags ↔
      ((x ∈ docTags ∧ some x ≠ ctx.remove_neu_tag_id) ∨
        some x = ctx.error_tag_id ∨ some x = ctx.ki_tag_id) := by
  unfold errorMarkTags
  cases hki : ctx.ki_tag_id <;> cases herr : ctx.error_tag_id <;>
    cases hneu : ctx.remove_neu_tag_id <;>
    simp [mem_insertInt, mem_eraseInt] <;> tauto

/-- Error-marking calls issued by the annotation phase, outside dry run
with a known id: exactly one single-shot tags `PATCH` carrying the
computed forced tag set when it differs from the current tags, none
otherwise; and no document-patch write-back at all. -/
theorem failureAnnotate_markCalls (cfg : AppConfig) (ctx : RunCtx) (st : ScanState)
    (docId : Option ℤ) (title : String) (docTags : List ℤ) (pfe : Option PatchPayload)
    (e : DocErr) (o : DocOracle) (i : ℤ)
    (hdry : cfg.dry_run = false) (hid : docId = some i) :
    (failureAnnotate cfg ctx st docId title docTags pfe e o).1.calls.filter
        (fun c => c.isMark) =
      st.calls.filter (fun c => c.isMark) ++
        (if errorMarkTags ctx docTags ≠ docTags
         then [.markErrorTagsCall i (errorMarkTags ctx docTags) 1] else []) ∧
    (failureAnnotate cfg ctx st docId title docTags pfe e o).1.calls.filter
        (fun c => c.isDocPatch) =
      st.calls.filter (fun c => c.isDocPatch) := by
  unfold failureAnnotate markStep noteStep
  simp only [hdry, hid, Bool.not_false, if_true]
  by_cases hne : errorMarkTags ctx docTags ≠ docTags
  · rw [if_pos hne]
    cases o.markRes (errorMarkTags ctx docTags) with
    | ok u =>
        dsimp only
        cases o.noteRes with
        | ok v => simp [List.filter_append, StoreCall.isMark, StoreCall.isDocPatch, hne]
        | error ne =>
            by_cases ha : ne.isApiError = true
            · simp [ha, List.filter_append, StoreCall.isMark, StoreCall.isDocPatch, hne]
            · simp [ha, List.filter_append, StoreCall.isMark, StoreCall.isDocPatch, hne]
    | error me =>
        by_cases hma : me.isApiError = true
        · simp only [hma, if_true]
          cases o.noteRes with
          | ok v => simp [List.filter_append, StoreCall.isMark, StoreCall.isDocPatch, hne]
          | error ne =>
              by_cases ha : ne.isApiError = true
              · simp [ha, List.filter_append, StoreCall.isMark, StoreCall.isDocPatch, hne]
              · simp [ha, List.filter_append, StoreCall.isMark, StoreCall.isDocPatch, hne]
        · simp only [hma, Bool.false_eq_true, if_false]
          simp [List.filter_append, StoreCall.isMark, StoreCall.isDocPatch, hne]
  · rw [if_neg hne]
    dsimp only
    cases o.noteRes with
    | ok v => simp [List.filter_append, StoreCall.isMark, StoreCall.isDocPatch, hne]
    | error ne =>
        by_cases ha : ne.isApiError = true
        · simp [ha, List.filter_append, StoreCall.isMark, StoreCall.isDocPatch, hne]
        · simp [ha, List.filter_append, StoreCall.isMark, StoreCall.isDocPatch, hne]

/-- C10: on a per-document failure outside dry run with a known document
id, the failure handler issues exactly one single-shot (`retries=1`)
error-marking tags `PATCH` carrying `errorMarkTags` — the current tags
with the `#neu` id removed and the `KI_FEHLER` and `KI` ids added, each
when known (see `mem_errorMarkTags`) — when that set differs from the
current tags, and no such `PATCH` at all when it is equal; it never issues
a document write-back `PATCH`. -/
theorem C10_error_marking (cfg : AppConfig) (ctx : RunCtx) (st : ScanState)
    (docId : Option ℤ) (docKey : Option String) (title : String) (docTags : List ℤ)
    (pfe : Option PatchPayload) (e : DocErr) (o : DocOracle) (i : ℤ)
    (hdry : cfg.dry_run = false) (hid : docId = some i) :
    (handleDocFailure cfg ctx st docId docKey title docTags pfe e o).1.calls.filter
        (fun c => c.isMark) =
      st.calls.filter (fun c => c.isMark) ++
        (if errorMarkTags ctx docTags ≠ docTags
         then [.markErrorTagsCall i (errorMarkTags ctx docTags) 1] else []) ∧
    (handleDocFailure cfg ctx st docId docKey title docTags pfe e o).1.calls.filter
        (fun c => c.isDocPatch) =
      st.calls.filter (fun c => c.isDocPatch) := by
  unfold handleDocFailure
  have h := failureAnnotate_markCalls cfg ctx
    (quarantineOnFailure cfg ctx { st with failed := st.failed + 1 } docKey pfe e o)
    docId title docTags pfe e o i hdry hid
  rw [quarantineOnFailure_calls] at h
  exact h

def c10Ctx : RunCtx := { ki_tag_id := some 1, error_tag_id := some 4,
                         remove_neu_tag_id := some 2 }

/-- C10 (witness): the marking behaviour on a concrete failure (current
tags `[2]`, forced set `[1, 4]`). -/
theorem C10_error_marking_witness :
    (handleDocFailure {} c10Ctx {} (some 9) (some "9") "t" [2] none
        (.aiError "boom") {}).1.calls.filter (fun c => c.isMark) =
      (({} : ScanState)).calls.filter (fun c => c.isMark) ++
        (if errorMarkTags c10Ctx [2] ≠ [2]
         then [.markErrorTagsCall 9 (errorMarkTags c10Ctx [2]) 1] else []) ∧
    (handleDocFailure {} c10Ctx {} (some 9) (some "9") "t" [2] none
        (.aiError "boom") {}).1.calls.filter (fun c => c.isDocPatch) =
      (({} : ScanState)).calls.filter (fun c => c.isDocPatch) :=
  C10_error_marking {} c10Ctx {} (some 9) (some "9") "t" [2] none (.aiError "boom")
    {} 9 rfl rfl

/-- Whether a fallible unit operation succeeded. -/
def isOkU (r : Except DocErr Unit) : Bool :=
  match r with
  | .ok _ => true
  | .error _ => false

/-- A usable fallback candidate that succeeds ends the loop at once. -/
theorem tryFallbacks_cons_ok (patchRes : PatchPayload → ℕ → Except DocErr Unit)
    (tried : List PatchPayload) (lastE : DocErr) (c : PatchPayload)
    (rest : List PatchPayload)
    (hempty : patchIsEmpty c = false) (htried : tried.contains c = false)
    (hok : patchRes c 1 = .ok ()) :
    tryFallbacks patchRes tried lastE (c :: rest) = ([(c, 1)], true, lastE) := by
  rw [tryFallbacks, hempty, htried, hok]
  rfl

/-- A usable fallback candidate that fails is recorded and the loop moves
on with the new last error. -/
theorem tryFallbacks_cons_err (patchRes : PatchPayload → ℕ → Except DocErr Unit)
    (tried : List PatchPayload) (lastE eA : DocErr) (c : PatchPayload)
    (rest : List PatchPayload)
    (hempty : patchIsEmpty c = false) (htried : tried.contains c = false)
    (herr : patchRes c 1 = .error eA) :
    tryFallbacks patchRes tried lastE (c :: rest) =
      ((c, 1) :: (tryFallbacks patchRes (c :: tried) eA rest).1,
       (tryFallbacks patchRes (c :: tried) eA rest).2.1,
       (tryFallbacks patchRes (c :: tried) eA rest).2.2) := by
  rw [tryFallbacks, hempty, htried, herr]
  rfl

/-- An empty fallback candidate is skipped. -/
theorem tryFallbacks_cons_empty (patchRes : PatchPayload → ℕ → Except DocErr Unit)
    (tried : List PatchPayload) (lastE : DocErr) (c : PatchPayload)
    (rest : List PatchPayload) (hempty : patchIsEmpty c = true) :
    tryFallbacks patchRes tried lastE (c :: rest) =
      tryFallbacks patchRes tried lastE rest := by
  rw [tryFallbacks, hempty]
  rfl

/-- The field-by-field loop succeeds exactly when some present field
patches successfully on its own. -/
theorem tryFields_succeeds_iff (patchRes : PatchPayload → ℕ → Except DocErr Unit)
    (patch : PatchPayload) (keys : List String) :
    (tryFields patchRes patch keys).2.1 = true ↔
      ∃ k ∈ keys, ∃ sp, singleFieldPayload patch k = some sp ∧
        patchRes sp 1 = .ok () := by
  induction keys with
  | nil => simp [tryFields]
  | cons k rest ih =>
      cases hsp : singleFieldPayload patch k with
      | none =>
          unfold tryFields
          rw [hsp]
          rw [ih]
          constructor
          · rintro ⟨k2, hk2, sp, hsp2, hres2⟩
            exact ⟨k2, List.mem_cons_of_mem _ hk2, sp, hsp2, hres2⟩
          · rintro ⟨k2, hk2, sp, hsp2, hres2⟩
            rcases List.mem_cons.mp hk2 with hk2 | hk2
            · subst hk2
              rw [hsp] at hsp2
              exact absurd hsp2 (by simp)
            · exact ⟨k2, hk2, sp, hsp2, hres2⟩
      | some sp =>
          unfold tryFields
          rw [hsp]
          dsimp only
          cases hres : patchRes sp 1 with
          | ok u =>
              dsimp only
              constructor
              · intro _
                exact ⟨k, List.mem_cons_self _ _, sp, hsp, by rw [hres]⟩
              · intro _
                rfl
          | error e2 =>
              dsimp only
              rw [ih]
              constructor
              · rintro ⟨k2, hk2, sp2, hsp2, hres2⟩
                exact ⟨k2, List.mem_cons_of_mem _ hk2, sp2, hsp2, hres2⟩
              · rintro ⟨k2, hk2, sp2, hsp2, hres2⟩
                rcases List.mem_cons.mp hk2 with hk2 | hk2
                · subst hk2
                  rw [hsp] at hsp2
                  obtain rfl : sp = sp2 := by injection hsp2
                  rw [hres] at hres2
                  exact absurd hres2 (by simp)
                · exact ⟨k2, hk2, sp2, hsp2, hres2⟩


/-- Concrete model output for the C7 scenario: document type resolves to id
5, the single tag to id 2, the date normalizes unchanged. -/
def c7Pred : JObj := [("document_type", .jstr "Invoice"), ("correspondent", .jnull),
  ("storage_path", .jnull), ("tags", .jlist [.jstr "T"]), ("confidence", .jnum 1),
  ("document_date", .jstr "2024-01-01")]

/-- Scan state for the C7 scenario with the two needed id mappings. -/
def c7State : ScanState := { tags_map := [("t", 2)], doc_types_map := [("invoice", 5)] }

/-- Store oracle for the C7 scenario: every PATCH carrying `created` fails
with an HTTP 500, every PATCH without it succeeds. -/
def c7Oracle : DocOracle :=
  { classifyRaw := .ok (c7Pred, ⟨1, 1, 2⟩),
    patchRes := fun p _ =>
      if p.created.isSome then .error (.apiError "HTTP 500 - x") else .ok () }

/-- Document of the C7 scenario. -/
def c7Doc : Document := { id := some 1, title := "D" }

/-- Configuration of the C7 scenario (threshold 0 so the confident answer
passes). -/
def c7Cfg : AppConfig := { confidence_threshold := 0 }

/-- The full patch the C7 scenario builds: document type 5, tag 2, created
date. -/
def c7Patch : PatchPayload :=
  { document_type := some 5, tags := some [2], created := some "2024-01-01" }

/-- C7: when the full-patch PATCH fails with a server error (HTTP 500),
`update_document` retries in order with the patch minus `created`, minus
`tags`, minus both, returning successfully at the first fallback that
succeeds with exactly that trace; if all applicable fallbacks fail it
patches field by field, succeeds if the field loop reports success, and
otherwise fails with a `PaperlessApiError` whose message appends the
fallback failure and the per-field analysis.  The concluding conjunct is
the spec scenario: a full payload `{document_type: 5, tags: [2], created:
"2024-01-01"}` whose write fails server-side but whose `created`-free
fallback succeeds leaves the document marked updated with no quarantine
record, with the PATCH trace showing the full attempt (3 retries) then the
fallback (1 retry). -/
theorem C7_update_fallback_cascade
    (patchRes : PatchPayload → ℕ → Except DocErr Unit)
    (patch : PatchPayload) (exc : DocErr)
    (hc : patch.created.isSome = true) (ht : patch.tags.isSome = true)
    (he : patchRes patch 3 = .error exc)
    (h500 : containsSub exc.msg "HTTP 500" = true) :
    upd_fallback_candidates patch =
      [removeCreated patch, removeTags patch, removeTags (removeCreated patch)] ∧
    (isOkU (patchRes (removeCreated patch) 1) = true →
      update_document patchRes patch = ([(patch, 3), (removeCreated patch, 1)], .ok ())) ∧
    (isOkU (patchRes (removeCreated patch) 1) = false →
     isOkU (patchRes (removeTags patch) 1) = true →
      update_document patchRes patch =
        ([(patch, 3), (removeCreated patch, 1), (removeTags patch, 1)], .ok ())) ∧
    (isOkU (patchRes (removeCreated patch) 1) = false →
     isOkU (patchRes (removeTags patch) 1) = false →
     patchIsEmpty (removeTags (removeCreated patch)) = false →
     isOkU (patchRes (removeTags (removeCreated patch)) 1) = true →
      update_document patchRes patch =
        ([(patch, 3), (removeCreated patch, 1), (removeTags patch, 1),
          (removeTags (removeCreated patch), 1)], .ok ())) ∧
    (isOkU (patchRes (removeCreated patch) 1) = false →
     isOkU (patchRes (removeTags patch) 1) = false →
     (patchIsEmpty (removeTags (removeCreated patch)) = true ∨
      isOkU (patchRes (removeTags (removeCreated patch)) 1) = false) →
      (((tryFields patchRes patch patchFieldOrder).2.1 = true →
        (update_document patchRes patch).2 = .ok ()) ∧
       ((tryFields patchRes patch patchFieldOrder).2.1 = false →
        (update_document patchRes patch).2 = .error (.apiError (exc.msg ++
          " | Fallback-PATCH ebenfalls fehlgeschlagen: " ++
          (tryFallbacks patchRes [] exc (upd_fallback_candidates patch)).2.2.msg ++
          " | Feldanalyse: " ++
          (if (tryFields patchRes patch patchFieldOrder).2.2.isEmpty then "keine"
           else String.intercalate "; " (tryFields patchRes patch patchFieldOrder).2.2)))))) ∧
    ((processOne c7Cfg {} c7State c7Doc c7Oracle).1.updated = 1 ∧
     (processOne c7Cfg {} c7State c7Doc c7Oracle).1.failed_docs_until = [] ∧
     (processOne c7Cfg {} c7State c7Doc c7Oracle).1.calls =
       [.classifyCall (some 1), .patchDocCall 1 c7Patch 3,
        .patchDocCall 1 (removeCreated c7Patch) 1, .addNoteCall 1] ∧
     (processOne c7Cfg {} c7State c7Doc c7Oracle).2 = .normal) := by
  obtain ⟨cv, hcv⟩ := Option.isSome_iff_exists.mp hc
  obtain ⟨tv, htv⟩ := Option.isSome_iff_exists.mp ht
  have hcand : upd_fallback_candidates patch =
      [removeCreated patch, removeTags patch, removeTags (removeCreated patch)] := by
    simp [upd_fallback_candidates, hc, ht]
  have hmCemp : patchIsEmpty (removeCreated patch) = false := by
    simp [patchIsEmpty, removeCreated, htv]
  have hmTemp : patchIsEmpty (removeTags patch) = false := by
    simp [patchIsEmpty, removeTags, hcv]
  have hne1 : removeTags patch ≠ removeCreated patch := by
    intro hEq
    have h2 := congrArg PatchPayload.tags hEq
    simp [removeTags, removeCreated, htv] at h2
  have hne2 : removeTags (removeCreated patch) ≠ removeTags patch := by
    intro hEq
    have h2 := congrArg PatchPayload.created hEq
    simp [removeTags, removeCreated, hcv] at h2
  have hne3 : removeTags (removeCreated patch) ≠ removeCreated patch := by
    intro hEq
    have h2 := congrArg PatchPayload.tags hEq
    simp [removeTags, removeCreated, htv] at h2
  have hb1 : (removeTags patch == removeCreated patch) = false :=
    beq_eq_false_iff_ne.mpr hne1
  have hb2 : (removeTags (removeCreated patch) == removeTags patch) = false :=
    beq_eq_false_iff_ne.mpr hne2
  have hb3 : (removeTags (removeCreated patch) == removeCreated patch) = false :=
    beq_eq_false_iff_ne.mpr hne3
  have hcon1 : ([removeCreated patch] : List PatchPayload).contains (removeTags patch) =
      false := by
    simp [List.contains, List.elem, hb1]
  have hcon2 : ([removeTags patch, removeCreated patch] : List PatchPayload).contains
      (removeTags (removeCreated patch)) = false := by
    simp [List.contains, List.elem, hb2, hb3]
  refine ⟨hcand, ?_, ?_, ?_, ?_, by decide⟩
  · intro h1
    cases hres1 : patchRes (removeCreated patch) 1 with
    | error eA => rw [hres1] at h1; simp [isOkU] at h1
    | ok u =>
      unfold update_document
      rw [he]
      simp only [h500, Bool.not_true, Bool.false_eq_true, if_false]
      rw [hcand]
      rw [tryFallbacks_cons_ok patchRes [] exc (removeCreated patch) _ hmCemp (by simp)
        (by rw [hres1])]
      rfl
  · intro h1 h2
    cases hres1 : patchRes (removeCreated patch) 1 with
    | ok u => rw [hres1] at h1; simp [isOkU] at h1
    | error eA =>
      cases hres2 : patchRes (removeTags patch) 1 with
      | error eB => rw [hres2] at h2; simp [isOkU] at h2
      | ok u =>
        unfold update_document
        rw [he]
        simp only [h500, Bool.not_true, Bool.false_eq_true, if_false]
        rw [hcand]
        rw [tryFallbacks_cons_err patchRes [] exc eA (removeCreated patch) _ hmCemp
          (by simp) hres1]
        rw [tryFallbacks_cons_ok patchRes [removeCreated patch] eA (removeTags patch) _
          hmTemp hcon1 (by rw [hres2])]
        rfl
  · intro h1 h2 h3 h4
    cases hres1 : patchRes (removeCreated patch) 1 with
    | ok u => rw [hres1] at h1; simp [isOkU] at h1
    | error eA =>
      cases hres2 : patchRes (removeTags patch) 1 with
      | ok u => rw [hres2] at h2; simp [isOkU] at h2
      | error eB =>
        cases hres3 : patchRes (removeTags (removeCreated patch)) 1 with
        | error eC => rw [hres3] at h4; simp [isOkU] at h4
        | ok u =>
          unfold update_document
          rw [he]
          simp only [h500, Bool.not_true, Bool.false_eq_true, if_false]
          rw [hcand]
          rw [tryFallbacks_cons_err patchRes [] exc eA (removeCreated patch) _ hmCemp
            (by simp) hres1]
          rw [tryFallbacks_cons_err patchRes [removeCreated patch] eA eB
            (removeTags patch) _ hmTemp hcon1 hres2]
          rw [tryFallbacks_cons_ok patchRes [removeTags patch, removeCreated patch] eB
            (removeTags (removeCreated patch)) _ h3 hcon2 (by rw [hres3])]
          rfl
  · intro h1 h2 h3
    cases hres1 : patchRes (removeCreated patch) 1 with
    | ok u => rw [hres1] at h1; simp [isOkU] at h1
    | error eA =>
      cases hres2 : patchRes (removeTags patch) 1 with
      | ok u => rw [hres2] at h2; simp [isOkU] at h2
      | error eB =>
        have hfb : tryFallbacks patchRes [] exc (upd_fallback_candidates patch) =
            ((removeCreated patch, 1) :: (removeTags patch, 1) ::
              (tryFallbacks patchRes
                [removeTags patch, removeCreated patch] eB
                [removeTags (removeCreated patch)]).1,
             (tryFallbacks patchRes [removeTags patch, removeCreated patch] eB
                [removeTags (removeCreated patch)]).2.1,
             (tryFallbacks patchRes [removeTags patch, removeCreated patch] eB
                [removeTags (removeCreated patch)]).2.2) := by
          rw [hcand]
          rw [tryFallbacks_cons_err patchRes [] exc eA (removeCreated patch) _ hmCemp
            (by simp) hres1]
          rw [tryFallbacks_cons_err patchRes [removeCreated patch] eA eB
            (removeTags patch) _ hmTemp hcon1 hres2]
        have hfb3 : (tryFallbacks patchRes [removeTags patch, removeCreated patch] eB
            [removeTags (removeCreated patch)]).2.1 = false := by
          rcases h3 with h3 | h3
          · rw [tryFallbacks_cons_empty patchRes _ eB _ _ h3]
            rfl
          · cases hres3 : patchRes (removeTags (removeCreated patch)) 1 with
            | ok u => rw [hres3] at h3; simp [isOkU] at h3
            | error eC =>
              by_cases hemp3 : patchIsEmpty (removeTags (removeCreated patch)) = true
              · rw [tryFallbacks_cons_empty patchRes _ eB _ _ hemp3]
                rfl
              · rw [tryFallbacks_cons_err patchRes _ eB eC _ _
                  (by simpa using hemp3) hcon2 hres3]
                rfl
        constructor
        · intro hfl
          unfold update_document
          rw [he]
          simp only [h500, Bool.not_true, Bool.false_eq_true, if_false]
          rw [hfb]
          dsimp only
          rw [hfb3]
          simp only [Bool.false_eq_true, if_false]
          rw [hfl]
          rfl
        · intro hfl
          unfold update_document
          rw [he]
          simp only [h500, Bool.not_true, Bool.false_eq_true, if_false]
          rw [hfb]
          dsimp only
          rw [hfb3]
          simp only [Bool.false_eq_true, if_false]
          rw [hfl]
          simp only [Bool.false_eq_true, if_false]

/-- Witness for C7 at a concrete input: for the scenario oracle whose
PATCHes fail exactly when `created` is present, the full patch fails with
HTTP 500 and `update_document` returns the two-element trace with success
at the first fallback. -/
theorem C7_update_fallback_cascade_witness :
    update_document c7Oracle.patchRes c7Patch =
      ([(c7Patch, 3), (removeCreated c7Patch, 1)], .ok ()) :=
  (C7_update_fallback_cascade c7Oracle.patchRes c7Patch (.apiError "HTTP 500 - x")
    (by decide) (by decide) (by decide) (by decide)).2.1 (by decide)

/-- The ok-constructor test for `Except DocErr (JObj × Usage)`. -/
def isOkPU (r : Except DocErr (JObj × Usage)) : Bool :=
  match r with
  | .ok _ => true
  | .error _ => false

/-- Error kinds `_validate_model_output` can produce besides success, when
`confidence` is never a null or a list: only the two caught kinds. -/
def vKindOk (r : Except DocErr Unit) : Bool :=
  match r with
  | .ok _ => true
  | .error (.aiError _) => true
  | .error (.valueError _) => true
  | .error _ => false

/-- A key listed in `requiredFields` is present once the missing-fields
check has passed. -/
theorem required_present (payload : JObj) (k : String) (hk : k ∈ requiredFields)
    (hm : (requiredFields.filter (fun k2 => (jget payload k2).isNone)).isEmpty = true) :
    (jget payload k).isNone = false := by
  cases hn : (jget payload k).isNone with
  | false => rfl
  | true =>
    have hmem : k ∈ requiredFields.filter (fun k2 => (jget payload k2).isNone) :=
      List.mem_filter.mpr ⟨hk, hn⟩
    have hnil : requiredFields.filter (fun k2 => (jget payload k2).isNone) = [] := by
      simpa using hm
    rw [hnil] at hmem
    simp at hmem

theorem validate_kinds (payload : JObj)
    (hconf : (match jget payload "confidence" with
              | some .jnull => false
              | some (.jlist _) => false
              | _ => true) = true) :
    vKindOk (validate_model_output payload) = true := by
  unfold validate_model_output
  dsimp only
  cases hm : (requiredFields.filter (fun k => (jget payload k).isNone)).isEmpty with
  | false => rfl
  | true =>
    simp only [Bool.not_true, Bool.false_eq_true, if_false]
    cases hts : jget payload "tags" with
    | none =>
      have hp := required_present payload "tags" (by decide) hm
      rw [hts] at hp
      simp at hp
    | some v =>
      cases v with
      | jlist l =>
        dsimp only
        cases hcv : jget payload "confidence" with
        | none =>
          have hp := required_present payload "confidence" (by decide) hm
          rw [hcv] at hp
          simp at hp
        | some cv =>
          dsimp only
          cases cv with
          | jnull => rw [hcv] at hconf; simp at hconf
          | jlist l2 => rw [hcv] at hconf; simp at hconf
          | jnum q =>
            dsimp only [pyFloat]
            repeat' (first | rfl | split)
          | jbool b =>
            dsimp only [pyFloat]
            repeat' (first | rfl | split)
          | jstr s =>
            dsimp only [pyFloat]
            cases hpd : parseDecimal s with
            | none => rfl
            | some q =>
              dsimp only
              repeat' (first | rfl | split)
      | jnull => rfl
      | jbool b => rfl
      | jnum q => rfl
      | jstr s => rfl


/-- A value passing the `document_date`/`summary` type test is null or a
string. -/
theorem jNullOrStr_of_cond_false (v : JVal)
    (h : (v != JVal.jnull &&
          !(match v with | JVal.jstr _ => true | _ => false)) = false) :
    v = .jnull ∨ ∃ s, v = .jstr s := by
  cases v with
  | jnull => exact Or.inl rfl
  | jstr s => exact Or.inr ⟨s, rfl⟩
  | jnum q => simp at h
  | jbool b => simp at h
  | jlist l => simp at h

/-- What a successful `_validate_model_output` guarantees about the
payload: no required field missing, `tags` a list, `confidence` (however
converted) within [0,1], `document_date` and `summary` null or strings
when present. -/
theorem validate_ok_shape (payload : JObj)
    (hok : validate_model_output payload = .ok ()) :
    (requiredFields.filter (fun k => (jget payload k).isNone)).isEmpty = true ∧
    (∃ l, jget payload "tags" = some (.jlist l)) ∧
    (∀ cv q, jget payload "confidence" = some cv → pyFloat cv = .ok q →
      ¬(q < 0 ∨ q > 1)) ∧
    (∀ v, jget payload "document_date" = some v → v = .jnull ∨ ∃ s, v = .jstr s) ∧
    (∀ w, jget payload "summary" = some w → w = .jnull ∨ ∃ s, w = .jstr s) := by
  unfold validate_model_output at hok
  dsimp only at hok
  cases hm : (requiredFields.filter (fun k => (jget payload k).isNone)).isEmpty with
  | false => rw [hm] at hok; simp at hok
  | true =>
    rw [hm] at hok
    simp only [Bool.not_true, Bool.false_eq_true, if_false] at hok
    cases hts : jget payload "tags" with
    | none => rw [hts] at hok; simp at hok
    | some v =>
      rw [hts] at hok
      cases v with
      | jnull => simp at hok
      | jbool b => simp at hok
      | jnum q => simp at hok
      | jstr s => simp at hok
      | jlist l =>
        dsimp only at hok
        cases hcv : jget payload "confidence" with
        | none => rw [hcv] at hok; simp at hok
        | some cv =>
          rw [hcv] at hok
          dsimp only at hok
          cases hpf : pyFloat cv with
          | error e => rw [hpf] at hok; simp at hok
          | ok q =>
            rw [hpf] at hok
            dsimp only at hok
            by_cases hr : (q < 0 ∨ q > 1)
            · rw [if_pos hr] at hok; simp at hok
            · rw [if_neg hr] at hok
              have hdate : ∀ v2, jget payload "document_date" = some v2 →
                  v2 = .jnull ∨ ∃ s, v2 = .jstr s := by
                intro v2 hv2
                rw [hv2] at hok
                dsimp only at hok
                split at hok
                · simp at hok
                · rename_i hcnd
                  exact jNullOrStr_of_cond_false v2 (by simpa using hcnd)
              have hsum : ∀ w, jget payload "summary" = some w →
                  w = .jnull ∨ ∃ s, w = .jstr s := by
                intro w hw
                cases hd : jget payload "document_date" with
                | none =>
                    rw [hd] at hok
                    dsimp only at hok
                    rw [hw] at hok
                    dsimp only at hok
                    split at hok
                    · simp at hok
                    · rename_i hcnd
                      exact jNullOrStr_of_cond_false w (by simpa using hcnd)
                | some v2 =>
                    rw [hd] at hok
                    dsimp only at hok
                    split at hok
                    · simp at hok
                    · rw [hw] at hok
                      dsimp only at hok
                      split at hok
                      · simp at hok
                      · rename_i hcnd
                        exact jNullOrStr_of_cond_false w (by simpa using hcnd)
              refine ⟨rfl, ⟨l, rfl⟩, ?_, hdate, hsum⟩
              intro cv2 q2 hcv2 hpf2
              injection hcv2 with h1
              rw [← h1] at hpf2
              rw [hpf] at hpf2
              injection hpf2 with h2
              rw [← h2]
              exact hr


/-- The out-of-range confidence 3/2 of the C5 scenario (given in lowest
terms so the rational literal evaluates). -/
def c5Conf : ℚ := ⟨3, 2, by decide, by decide⟩

/-- Model output of the C5 scenario: well-shaped except `confidence` 1.5. -/
def c5Pred : JObj := [("document_type", .jstr "X"), ("correspondent", .jnull),
  ("storage_path", .jnull), ("tags", .jlist []), ("confidence", .jnum c5Conf)]

/-- Oracle of the C5 scenario: the transport delivers the 1.5-confidence
payload; the store would accept any write. -/
def c5Oracle : DocOracle := { classifyRaw := .ok (c5Pred, ⟨1, 1, 2⟩) }

/-- Document of the C5 scenario. -/
def c5Doc : Document := { id := some 3, title := "E" }

/-- C5: given that the `confidence` value is never a null or a list (so
`float()` cannot raise an uncaught `TypeError`), any of the five
validation violations - a missing required field, a non-list `tags`, a
convertible `confidence` outside [0,1], a present non-null non-string
`document_date` or `summary` - makes `classify` reject the model output as
a whole: it returns no result and fails with an `AiClassificationError`.
The closing conjunct is the spec scenario: a payload with confidence 1.5
is rejected by the validator with the range message, and the document
scan counts the document as failed, marks nothing updated and issues no
write-back PATCH. -/
theorem C5_validation_all_or_nothing
    (payload : JObj) (usage : Usage)
    (hconf : (match jget payload "confidence" with
              | some .jnull => false
              | some (.jlist _) => false
              | _ => true) = true)
    (hviol :
      (∃ k, k ∈ requiredFields ∧ jget payload k = none) ∨
      (∃ v, jget payload "tags" = some v ∧
        (match v with | JVal.jlist _ => false | _ => true) = true) ∨
      (∃ cv q, jget payload "confidence" = some cv ∧ pyFloat cv = .ok q ∧
        (q < 0 ∨ q > 1)) ∨
      (∃ v, jget payload "document_date" = some v ∧ v ≠ .jnull ∧
        (match v with | JVal.jstr _ => false | _ => true) = true) ∨
      (∃ w, jget payload "summary" = some w ∧ w ≠ .jnull ∧
        (match w with | JVal.jstr _ => false | _ => true) = true)) :
    isOkPU (classify (.ok (payload, usage))) = false ∧
    (∃ m, classify (.ok (payload, usage)) = .error (.aiError m)) ∧
    (validate_model_output c5Pred =
       .error (.aiError "KI-Ausgabe: 'confidence' muss zwischen 0 und 1 liegen.") ∧
     (processOne {} {} {} c5Doc c5Oracle).1.failed = 1 ∧
     (processOne {} {} {} c5Doc c5Oracle).1.updated = 0 ∧
     (processOne {} {} {} c5Doc c5Oracle).1.calls.filter StoreCall.isDocPatch = []) := by
  have hne : validate_model_output payload ≠ .ok () := by
    intro hok
    obtain ⟨hm, ⟨l, hts⟩, hcv, hdate, hsum⟩ := validate_ok_shape payload hok
    rcases hviol with ⟨k, hk, hnone⟩ | ⟨v, hv, hnl⟩ | ⟨cv, q, hc, hq, hrange⟩ |
      ⟨v, hv, hnn, hns⟩ | ⟨w, hw, hnn, hns⟩
    · have hp := required_present payload k hk hm
      rw [hnone] at hp
      simp at hp
    · rw [hts] at hv
      injection hv with h
      rw [← h] at hnl
      simp at hnl
    · exact (hcv cv q hc hq) hrange
    · rcases hdate v hv with h | ⟨s, h⟩
      · exact hnn h
      · rw [h] at hns
        simp at hns
    · rcases hsum w hw with h | ⟨s, h⟩
      · exact hnn h
      · rw [h] at hns
        simp at hns
  have hkinds := validate_kinds payload hconf
  cases hv : validate_model_output payload with
  | ok u =>
      cases u
      exact absurd hv hne
  | error e =>
      cases e with
      | aiError m =>
          refine ⟨?_, ⟨m, ?_⟩, by decide, by decide, by decide, by decide⟩
          · unfold classify
            dsimp only
            rw [hv]
            try rfl
          · unfold classify
            dsimp only
            rw [hv]
            try rfl
      | valueError m =>
          refine ⟨?_, ⟨"KI-Antwort ungültig oder Request fehlgeschlagen: " ++ m, ?_⟩,
            by decide, by decide, by decide, by decide⟩
          · unfold classify
            dsimp only
            rw [hv]
            try rfl
          · unfold classify
            dsimp only
            rw [hv]
            try rfl
      | apiError m =>
          rw [hv] at hkinds
          simp [vKindOk] at hkinds
      | uncaught m =>
          rw [hv] at hkinds
          simp [vKindOk] at hkinds


/-- Witness for C5 at a concrete input: the 1.5-confidence payload is
rejected by `classify`. -/
theorem C5_validation_all_or_nothing_witness :
    isOkPU (classify (.ok (c5Pred, ⟨1, 1, 2⟩))) = false :=
  (C5_validation_all_or_nothing c5Pred ⟨1, 1, 2⟩ (by decide)
    (Or.inr (Or.inr (Or.inl
      ⟨.jnum c5Conf, c5Conf, by decide, rfl, Or.inr (by decide)⟩)))).1


/-- Well-behaved store outcome: success or a `PaperlessApiError`. -/
def okOrApiU (r : Except DocErr Unit) : Bool :=
  match r with
  | .ok _ => true
  | .error e => e.isApiError

/-- With a store that fails only with `PaperlessApiError`, the error-tag
marking step never propagates an exception. -/
theorem markStep_no_crash (cfg : AppConfig) (ctx : RunCtx) (st : ScanState)
    (docId : Option ℤ) (docTags : List ℤ) (o : DocOracle)
    (hmark : ∀ ts, okOrApiU (o.markRes ts) = true) :
    (markStep cfg ctx st docId docTags o).2 = none := by
  unfold markStep
  dsimp only
  split
  · split
    · split
      · split
        · rfl
        · rename_i i hne hres
          have h2 := hmark (errorMarkTags ctx docTags)
          rw [hres] at h2
          split
          · rfl
          · rename_i hcond
            exact absurd h2 hcond
      · rfl
    · rfl
  · rfl

/-- With a store that fails only with `PaperlessApiError`, the failure-note
step never propagates an exception. -/
theorem noteStep_no_crash (cfg : AppConfig) (st : ScanState) (docId : Option ℤ)
    (o : DocOracle) (hnote : okOrApiU o.noteRes = true) :
    (noteStep cfg st docId o).2 = none := by
  unfold noteStep
  dsimp only
  split
  · split
    · split
      · rfl
      · rename_i i hres
        have h2 := hnote
        rw [hres] at h2
        split
        · rfl
        · rename_i hcond
          exact absurd h2 hcond
    · rfl
  · rfl

/-- The quarantine transition never touches the failure counter or the
error records. -/
theorem quarantineOnFailure_fields (cfg : AppConfig) (ctx : RunCtx) (st : ScanState)
    (docKey : Option String) (pfe : Option PatchPayload) (e : DocErr) (o : DocOracle) :
    (quarantineOnFailure cfg ctx st docKey pfe e o).failed = st.failed ∧
    (quarantineOnFailure cfg ctx st docKey pfe e o).error_details = st.error_details := by
  unfold quarantineOnFailure
  dsimp only
  repeat' (first | exact ⟨rfl, rfl⟩ | split)


/-- With well-behaved marking/note stores, the document-boundary handler
catches the failure: it reports no exception, increments the failure
counter by one, and appends exactly one error record carrying the id,
title, error kind, message and last-attempted patch. -/
theorem handleDocFailure_catches (cfg : AppConfig) (ctx : RunCtx) (st : ScanState)
    (docId : Option ℤ) (docKey : Option String) (title : String) (docTags : List ℤ)
    (pfe : Option PatchPayload) (e : DocErr) (o : DocOracle)
    (hmark : ∀ ts, okOrApiU (o.markRes ts) = true)
    (hnote : okOrApiU o.noteRes = true) :
    (handleDocFailure cfg ctx st docId docKey title docTags pfe e o).2 = none ∧
    (handleDocFailure cfg ctx st docId docKey title docTags pfe e o).1.failed =
      st.failed + 1 ∧
    (handleDocFailure cfg ctx st docId docKey title docTags pfe e o).1.error_details =
      st.error_details ++ [⟨docId, title, e.typeName, e.msg, pfe⟩] := by
  unfold handleDocFailure failureAnnotate
  have hq := quarantineOnFailure_fields cfg ctx { st with failed := st.failed + 1 }
    docKey pfe e o
  cases hm : markStep cfg ctx
      (quarantineOnFailure cfg ctx { st with failed := st.failed + 1 } docKey pfe e o)
      docId docTags o with
  | mk st1 r1 =>
    have hmn := markStep_no_crash cfg ctx
      (quarantineOnFailure cfg ctx { st with failed := st.failed + 1 } docKey pfe e o)
      docId docTags o hmark
    rw [hm] at hmn
    have hmf := markStep_fields cfg ctx
      (quarantineOnFailure cfg ctx { st with failed := st.failed + 1 } docKey pfe e o)
      docId docTags o
    rw [hm] at hmf
    dsimp only at hmn
    rw [hmn]
    dsimp only
    cases hn : noteStep cfg st1 docId o with
    | mk st2 r2 =>
      have hnn := noteStep_no_crash cfg st1 docId o hnote
      rw [hn] at hnn
      have hnf := noteStep_fields cfg st1 docId o
      rw [hn] at hnf
      dsimp only at hnn
      rw [hnn]
      dsimp only
      refine ⟨rfl, ?_, ?_⟩
      · rw [hnf.2.2.1, hmf.2.2.1, hq.1]
      · rw [hnf.2.2.2, hmf.2.2.2, hq.2]


/-- With a store whose `PATCH`es fail only with `PaperlessApiError`, a
failed `update_document` fails with a `PaperlessApiError` too (propagated
for non-server errors, constructed after the fallback cascade). -/
theorem update_document_err_api (patchRes : PatchPayload → ℕ → Except DocErr Unit)
    (patch : PatchPayload)
    (hpatch : ∀ p n, okOrApiU (patchRes p n) = true) :
    okOrApiU (update_document patchRes patch).2 = true := by
  unfold update_document
  cases he : patchRes patch 3 with
  | ok u => rfl
  | error exc =>
    dsimp only
    split
    · have h2 := hpatch patch 3
      rw [he] at h2
      exact h2
    · split
      · rfl
      · split
        · rfl
        · rfl

/-- The document loop continues with the remaining documents after a
normally finishing step. -/
theorem runDocs_cons_normal (cfg : AppConfig) (ctx : RunCtx) (st : ScanState)
    (d : Document) (o : DocOracle) (rest : List (Document × DocOracle))
    (h : (processOne cfg ctx st d o).2 = .normal) :
    runDocs cfg ctx st ((d, o) :: rest) =
      runDocs cfg ctx (processOne cfg ctx st d o).1 rest := by
  cases hp : processOne cfg ctx st d o with
  | mk st2 r =>
    rw [hp] at h
    dsimp only at h
    cases r with
    | crashed e => simp at h
    | normal =>
      simp only [runDocs]
      rw [hp]


/-- A failed `update_document` against a store whose `PATCH`es fail only
with `PaperlessApiError` failed with a `PaperlessApiError`. -/
theorem update_document_api_of_err (patchRes : PatchPayload → ℕ → Except DocErr Unit)
    (patch : PatchPayload) (exc : DocErr)
    (hpatch : ∀ p n, okOrApiU (patchRes p n) = true)
    (he : (update_document patchRes patch).2 = .error exc) :
    exc.isApiError = true := by
  have ha := update_document_err_api patchRes patch hpatch
  rw [he] at ha
  exact ha

/-- With a store that fails only with `PaperlessApiError` on document
PATCHes, error marking and notes, a document-loop step never aborts the
scan with a caught-kind error: every `AiClassificationError`,
`PaperlessApiError` or `ValueError` raised while processing the document
is caught at the document boundary. -/
theorem processOne_no_caught_crash (cfg : AppConfig) (ctx : RunCtx) (st : ScanState)
    (doc : Document) (o : DocOracle)
    (hpatch : ∀ p n, okOrApiU (o.patchRes p n) = true)
    (hmark : ∀ ts, okOrApiU (o.markRes ts) = true)
    (hnote : okOrApiU o.noteRes = true) :
    ∀ e, (processOne cfg ctx st doc o).2 = .crashed e → e.isCaughtKind = false := by
  intro e h
  unfold processOne at h
  dsimp only at h
  split at h
  · -- cached-patch retry branch
    split at h
    · simp at h
    · split at h
      · -- unknown id: uncaught TypeError
        dsimp only at h
        injection h with h2
        rw [← h2]
        rfl
      · split at h
        · simp at h
        · split at h
          · simp at h
          · rename_i retryExc hud hapi
            dsimp only at h
            injection h with h2
            rw [← h2]
            exact absurd (update_document_api_of_err o.patchRes _ _ hpatch hud) hapi
  · -- fresh-attempt branch
    split at h
    · simp at h
    · split at h
      · simp at h
      · split at h
        · simp at h
        · split at h
          · simp at h
          · rename_i stA e2 pfe hatt
            split at h
            · -- caught kind: boundary handler
              split at h
              · simp at h
              · rename_i hck st3 ce hhandle
                have hc := (handleDocFailure_catches cfg ctx stA doc.id
                  (doc.id.map (fun i => toString i)) doc.title (intSetOf doc.tags)
                  pfe e2 o hmark hnote).1
                rw [hhandle] at hc
                simp at hc
            · rename_i hck
              dsimp only at h
              injection h with h2
              rw [← h2]
              cases hb : e2.isCaughtKind with
              | false => rfl
              | true => exact absurd hb hck


/-- Oracle for the first C4 scenario document: classification fails with
an `AiClassificationError`. -/
def c4Oracle : DocOracle := { classifyRaw := .error (.aiError "boom") }
/-- First C4 scenario document (its processing fails). -/
def c4Doc : Document := { id := some 4, title := "W" }
/-- Well-formed model output for the second C4 scenario document. -/
def c4Pred : JObj := [("document_type", .jstr "Invoice"), ("correspondent", .jnull),
  ("storage_path", .jnull), ("tags", .jlist [.jstr "T"]), ("confidence", .jnum 1),
  ("document_date", .jstr "2024-01-01")]
/-- Oracle for the second C4 scenario document: classification succeeds
and every store call is accepted. -/
def c4Oracle2 : DocOracle := { classifyRaw := .ok (c4Pred, ⟨1, 1, 2⟩) }
/-- Second C4 scenario document (processed normally after the failure). -/
def c4Doc2 : Document := { id := some 6, title := "V" }
/-- Configuration of the C4 scenario. -/
def c4Cfg : AppConfig := { confidence_threshold := 0 }
/-- Scan state of the C4 scenario with the needed id mappings. -/
def c4State : ScanState := { tags_map := [("t", 2)], doc_types_map := [("invoice", 5)] }

/-- C4: with a store that fails only with `PaperlessApiError` on document
PATCHes, error marking and notes, (1) the document-boundary handler always
catches the failure, increments the failure counter by one and appends
exactly one error record carrying the id, title, error kind, message and
last-attempted patch; (2) a document-loop step never aborts the scan with
a caught-kind error (`AiClassificationError`, `PaperlessApiError`,
`ValueError`); (3) after a normally finishing step the loop continues
with the remaining documents; and (4) in a concrete two-document run
whose first document fails classification, the scan completes without
crash, scans both documents, records the one failure with its error
record, and updates the second document. -/
theorem C4_error_boundary (cfg : AppConfig) (ctx : RunCtx) (o : DocOracle)
    (hpatch : ∀ p n, okOrApiU (o.patchRes p n) = true)
    (hmark : ∀ ts, okOrApiU (o.markRes ts) = true)
    (hnote : okOrApiU o.noteRes = true) :
    (∀ st docId docKey title docTags pfe e,
      (handleDocFailure cfg ctx st docId docKey title docTags pfe e o).2 = none ∧
      (handleDocFailure cfg ctx st docId docKey title docTags pfe e o).1.failed =
        st.failed + 1 ∧
      (handleDocFailure cfg ctx st docId docKey title docTags pfe e o).1.error_details =
        st.error_details ++ [⟨docId, title, e.typeName, e.msg, pfe⟩]) ∧
    (∀ st doc e, (processOne cfg ctx st doc o).2 = .crashed e → e.isCaughtKind = false) ∧
    (∀ st doc rest, (processOne cfg ctx st doc o).2 = .normal →
      runDocs cfg ctx st ((doc, o) :: rest) =
        runDocs cfg ctx (processOne cfg ctx st doc o).1 rest) ∧
    ((runDocs c4Cfg {} c4State [(c4Doc, c4Oracle), (c4Doc2, c4Oracle2)]).2 = none ∧
    (runDocs c4Cfg {} c4State [(c4Doc, c4Oracle), (c4Doc2, c4Oracle2)]).1.scanned = 2 ∧
    (runDocs c4Cfg {} c4State [(c4Doc, c4Oracle), (c4Doc2, c4Oracle2)]).1.failed = 1 ∧
    (runDocs c4Cfg {} c4State [(c4Doc, c4Oracle), (c4Doc2, c4Oracle2)]).1.updated = 1 ∧
     (runDocs c4Cfg {} c4State [(c4Doc, c4Oracle), (c4Doc2, c4Oracle2)]).1.error_details =
       [⟨some 4, "W", "AiClassificationError", "boom", none⟩]) := by
  refine ⟨?_, ?_, ?_, by decide⟩
  · intro st docId docKey title docTags pfe e
    exact handleDocFailure_catches cfg ctx st docId docKey title docTags pfe e o hmark hnote
  · intro st doc e
    exact processOne_no_caught_crash cfg ctx st doc o hpatch hmark hnote e
  · intro st doc rest h
    exact runDocs_cons_normal cfg ctx st doc o rest h

/-- Witness for C4 at a concrete input: the boundary handler catches a
concrete classification failure without propagating it. -/
theorem C4_error_boundary_witness :
    (handleDocFailure {} {} {} (some 4) (some "4") "W" [] none (.aiError "boom")
      c4Oracle).2 = none :=
  ((C4_error_boundary {} {} c4Oracle (fun _ _ => rfl) (fun _ => rfl) rfl).1
    {} (some 4) (some "4") "W" [] none (.aiError "boom")).1


/-- With entity creation disabled the resolver issues no call. -/
theorem ensure_entity_id_calls_nocreate (cr : String → String → Except DocErr ℤ)
    (m : List (String × ℤ)) (n : Option String) (ep : String) (cm : Bool)
    (ce : List (String × String)) (calls : List StoreCall) (hc : cm = false) :
    (ensure_entity_id cr m n ep cm ce calls).calls = calls := by
  subst hc
  unfold ensure_entity_id
  repeat' (first | rfl | split | dsimp only)
  all_goals simp_all

/-- With entity creation disabled the tag-resolution loop issues no call. -/
theorem resolveTagIds_calls_nocreate (cr : String → String → Except DocErr ℤ)
    (cm : Bool) (hc : cm = false) :
    ∀ (ts : List JVal) (m : List (String × ℤ)) (ce : List (String × String))
      (calls : List StoreCall),
      (resolveTagIds cr cm ts m ce calls).1 = calls := by
  subst hc
  intro ts
  induction ts with
  | nil => intro m ce calls; rfl
  | cons t rest ih =>
      intro m ce calls
      unfold resolveTagIds
      dsimp only
      have he := ensure_entity_id_calls_nocreate cr m (some (pyStr t)) "/api/tags/"
        false ce calls rfl
      split
      · rw [he]
      · rename_i idOpt hres
        split
        · rename_i e2 hres2
          have h2 := ih (ensure_entity_id cr m (some (pyStr t)) "/api/tags/" false
            ce calls).mapping (ensure_entity_id cr m (some (pyStr t)) "/api/tags/" false
            ce calls).created_entities (ensure_entity_id cr m (some (pyStr t)) "/api/tags/"
            false ce calls).calls
          rw [h2, he]
        · rename_i ids hres2
          have h2 := ih (ensure_entity_id cr m (some (pyStr t)) "/api/tags/" false
            ce calls).mapping (ensure_entity_id cr m (some (pyStr t)) "/api/tags/" false
            ce calls).created_entities (ensure_entity_id cr m (some (pyStr t)) "/api/tags/"
            false ce calls).calls
          rw [h2, he]

/-- With entity creation disabled the patch builder issues no call. -/
theorem build_patch_payload_calls_nocreate (cr : String → String → Except DocErr ℤ)
    (pred : JObj) (tm dtm cm2 spm : List (String × ℤ)) (cme : Bool)
    (ce : List (String × String)) (calls : List StoreCall) (hc : cme = false) :
    (build_patch_payload cr pred tm dtm cm2 spm cme ce calls).calls = calls := by
  subst hc
  unfold build_patch_payload
  dsimp only
  repeat' split
  all_goals simp only [ensure_entity_id_calls_nocreate cr _ _ _ false _ _ rfl,
    resolveTagIds_calls_nocreate cr false rfl]


/-- In dry run the marking step is a no-op. -/
theorem markStep_dry (cfg : AppConfig) (ctx : RunCtx) (st : ScanState)
    (docId : Option ℤ) (docTags : List ℤ) (o : DocOracle) (hdry : cfg.dry_run = true) :
    markStep cfg ctx st docId docTags o = (st, none) := by
  unfold markStep
  rw [hdry]
  rfl

/-- In dry run the note step is a no-op. -/
theorem noteStep_dry (cfg : AppConfig) (st : ScanState) (docId : Option ℤ)
    (o : DocOracle) (hdry : cfg.dry_run = true) :
    noteStep cfg st docId o = (st, none) := by
  unfold noteStep
  rw [hdry]
  rfl

/-- In dry run the failure handler issues no store call. -/
theorem handleDocFailure_calls_dry (cfg : AppConfig) (ctx : RunCtx) (st : ScanState)
    (docId : Option ℤ) (docKey : Option String) (title : String) (docTags : List ℤ)
    (pfe : Option PatchPayload) (e : DocErr) (o : DocOracle) (hdry : cfg.dry_run = true) :
    (handleDocFailure cfg ctx st docId docKey title docTags pfe e o).1.calls =
      st.calls := by
  unfold handleDocFailure failureAnnotate
  rw [markStep_dry cfg ctx _ docId docTags o hdry]
  dsimp only
  rw [noteStep_dry cfg _ docId o hdry]
  dsimp only
  exact quarantineOnFailure_calls cfg ctx _ docKey pfe e o


/-- `build_patch_payload` with creation disabled, specialized for
rewriting. -/
theorem build_patch_payload_calls_false (cr : String → String → Except DocErr ℤ)
    (pred : JObj) (tm dtm cm2 spm : List (String × ℤ))
    (ce : List (String × String)) (calls : List StoreCall) :
    (build_patch_payload cr pred tm dtm cm2 spm false ce calls).calls = calls :=
  build_patch_payload_calls_nocreate cr pred tm dtm cm2 spm false ce calls rfl

/-- The classification request is not a write. -/
theorem filter_calls_append_classify (cs : List StoreCall) (d : Option ℤ) :
    (cs ++ [StoreCall.classifyCall d]).filter StoreCall.isWrite =
      cs.filter StoreCall.isWrite := by
  simp [List.filter_append, StoreCall.isWrite]

/-- In dry run the try body issues no store write: its only call is the
classification request. -/
theorem attemptDoc_calls_dry (cfg : AppConfig) (ctx : RunCtx) (st : ScanState)
    (doc : Document) (o : DocOracle) (docId : Option ℤ) (docKey : Option String)
    (docTags : List ℤ) (hdry : cfg.dry_run = true) :
    (attemptDoc cfg ctx st doc o docId docKey docTags).1.calls.filter StoreCall.isWrite =
      st.calls.filter StoreCall.isWrite := by
  have hcc : (cfg.create_missing_entities && !cfg.dry_run) = false := by
    rw [hdry]
    simp
  unfold attemptDoc
  dsimp only
  rw [hdry]
  simp only [if_true]
  repeat' split
  all_goals try (dsimp only)
  all_goals try (first
    | rfl
    | exact filter_calls_append_classify st.calls docId
    | simp_all)
  all_goals (rw [build_patch_payload_calls_false]
             exact filter_calls_append_classify st.calls docId)


/-- `attemptDoc_calls_dry` in equation form. -/
theorem attemptDoc_calls_dry_of (cfg : AppConfig) (ctx : RunCtx) (stX : ScanState)
    (doc : Document) (o : DocOracle) (docId : Option ℤ) (docKey : Option String)
    (docTags : List ℤ) (stY : ScanState) (r : TryOut) (hdry : cfg.dry_run = true)
    (h : attemptDoc cfg ctx stX doc o docId docKey docTags = (stY, r)) :
    stY.calls.filter StoreCall.isWrite = stX.calls.filter StoreCall.isWrite := by
  have h2 := attemptDoc_calls_dry cfg ctx stX doc o docId docKey docTags hdry
  rw [h] at h2
  exact h2

/-- `handleDocFailure_calls_dry` in equation form. -/
theorem handleDocFailure_calls_dry_of (cfg : AppConfig) (ctx : RunCtx) (stX : ScanState)
    (docId : Option ℤ) (docKey : Option String) (title : String) (docTags : List ℤ)
    (pfe : Option PatchPayload) (e : DocErr) (o : DocOracle) (stY : ScanState)
    (r : Option DocErr) (hdry : cfg.dry_run = true)
    (h : handleDocFailure cfg ctx stX docId docKey title docTags pfe e o = (stY, r)) :
    stY.calls = stX.calls := by
  have h2 := handleDocFailure_calls_dry cfg ctx stX docId docKey title docTags pfe e o hdry
  rw [h] at h2
  exact h2

/-- In dry run a document-loop step issues no store write. -/
theorem processOne_calls_dry (cfg : AppConfig) (ctx : RunCtx) (st : ScanState)
    (doc : Document) (o : DocOracle) (hdry : cfg.dry_run = true) :
    (processOne cfg ctx st doc o).1.calls.filter StoreCall.isWrite =
      st.calls.filter StoreCall.isWrite := by
  unfold processOne
  dsimp only
  rw [hdry]
  split
  · split
    · rfl
    · rename_i h
      exact absurd rfl h
  · split
    · rfl
    · split
      · repeat' split
        all_goals rfl
      · split
        · repeat' split
          all_goals rfl
        · split
          · rename_i stA hA
            have h2 := attemptDoc_calls_dry_of _ _ _ _ _ _ _ _ _ _ hdry hA
            dsimp only
            rw [h2]
            repeat' split
            all_goals rfl
          · rename_i stA e2 pfe hA
            split
            · split
              · rename_i hck st3 hH
                have h3 := handleDocFailure_calls_dry_of _ _ _ _ _ _ _ _ _ _ _ _ hdry hH
                have h2 := attemptDoc_calls_dry_of _ _ _ _ _ _ _ _ _ _ hdry hA
                dsimp only
                rw [h3, h2]
                repeat' split
                all_goals rfl
              · rename_i hck st3 ce hH
                have h3 := handleDocFailure_calls_dry_of _ _ _ _ _ _ _ _ _ _ _ _ hdry hH
                have h2 := attemptDoc_calls_dry_of _ _ _ _ _ _ _ _ _ _ hdry hA
                dsimp only
                rw [h3, h2]
                repeat' split
                all_goals rfl
            · have h2 := attemptDoc_calls_dry_of _ _ _ _ _ _ _ _ _ _ hdry hA
              dsimp only
              rw [h2]
              repeat' split
              all_goals rfl


/-- In dry run the document loop issues no store write. -/
theorem runDocs_calls_dry (cfg : AppConfig) (ctx : RunCtx) (hdry : cfg.dry_run = true) :
    ∀ (docs : List (Document × DocOracle)) (st : ScanState),
      (runDocs cfg ctx st docs).1.calls.filter StoreCall.isWrite =
        st.calls.filter StoreCall.isWrite := by
  intro docs
  induction docs with
  | nil => intro st; rfl
  | cons p rest ih =>
      intro st
      obtain ⟨d, o⟩ := p
      simp only [runDocs]
      cases hp : processOne cfg ctx st d o with
      | mk st2 r =>
        have h2 := processOne_calls_dry cfg ctx st d o hdry
        rw [hp] at h2
        cases r with
        | normal =>
            dsimp only
            rw [ih st2]
            exact h2
        | crashed e =>
            dsimp only
            exact h2

/-- `runDocs_calls_dry` in equation form. -/
theorem runDocs_calls_dry_of (cfg : AppConfig) (ctx : RunCtx) (stX : ScanState)
    (docs : List (Document × DocOracle)) (stY : ScanState) (rr : Option DocErr)
    (hdry : cfg.dry_run = true) (h : runDocs cfg ctx stX docs = (stY, rr)) :
    stY.calls.filter StoreCall.isWrite = stX.calls.filter StoreCall.isWrite := by
  have h2 := runDocs_calls_dry cfg ctx hdry docs stX
  rw [h] at h2
  exact h2

/-- C3 (amended): a dry run issues no store write at all - no document
update, no note, no entity creation, no error marking; the only calls a
dry run can make are classification requests.  (Persistent state files
are still written, as the counterexample shows.) -/
theorem C3_dry_run_no_store_writes (cfg : AppConfig) (inp : RunInputs)
    (hdry : cfg.dry_run = true) :
    (process_documents cfg inp).state.calls.filter StoreCall.isWrite = [] := by
  have hcc : (cfg.create_missing_entities && !cfg.dry_run) = false := by
    rw [hdry]
    simp
  unfold process_documents
  dsimp only
  repeat' split
  all_goals (
    try simp only [ensure_entity_id_calls_nocreate _ _ _ _ _ _ _ hcc]
    try rfl)
  all_goals (
    first
      | (rename_i hx hr
         have h2 := runDocs_calls_dry_of _ _ _ _ _ _ hdry hr
         rw [h2]
         simp only [ensure_entity_id_calls_nocreate _ _ _ _ _ _ _ hcc]
         repeat' split
         all_goals rfl)
      | (rename_i hr hx
         have h2 := runDocs_calls_dry_of _ _ _ _ _ _ hdry hr
         rw [h2]
         simp only [ensure_entity_id_calls_nocreate _ _ _ _ _ _ _ hcc]
         repeat' split
         all_goals rfl))


/-- Configuration of the C3 counterexample: a dry run. -/
def c3Cfg : AppConfig := { dry_run := true }
/-- Oracle of the C3 counterexample: classification fails. -/
def c3Oracle : DocOracle := { classifyRaw := .error (.aiError "boom") }
/-- Inputs of the C3 counterexample: one document, empty state files. -/
def c3Inp : RunInputs := { docs := [({ id := some 5, title := "d" }, c3Oracle)] }

/-- C3 (counterexample): a dry run is not free of persistent state
changes: with one document whose classification fails, the dry run still
writes the metrics file with the run counter incremented and writes the
failed-documents quarantine file with the document quarantined (and counts
the failure in memory). -/
theorem C3_counterexample :
    c3Cfg.dry_run = true ∧
    (process_documents c3Cfg c3Inp).saved_metrics.map (fun m => m.totals.runs) = some 1 ∧
    (process_documents c3Cfg c3Inp).saved_failed_docs.map (fun l => l.map Prod.fst) =
      some ["5"] ∧
    (process_documents c3Cfg c3Inp).state.failed = 1 := by
  refine ⟨rfl, by decide, by decide, by decide⟩

/-- Witness for C3 (amended) at a concrete input: the counterexample dry
run issues no store write. -/
theorem C3_dry_run_no_store_writes_witness :
    (process_documents c3Cfg c3Inp).state.calls.filter StoreCall.isWrite = [] :=
  C3_dry_run_no_store_writes c3Cfg c3Inp rfl


end PaperlessKIplus
